import Mathlib

/-!
# ut-reader: the UNI-T frame decoder (`data_parser.c`)

A shallow embedding of `data_parser.c`.  A frame is the 11-byte buffer handed
to `data_parse_and_print`; every handler is a function from the frame to the
trace of output calls it performs (each `data_printer(value, unit)` call and
each `fprintf(stderr, ...)` call is one entry of the trace).  The `buf_size`
argument, which no handler reads, is left out.  The process-wide settings are
an explicit `Config` record, and the clock and `strftime` are inputs of
`data_printer`.
-/

namespace UT

/-! ## C library fragments used by the decoder -/

/-- One variadic argument of the printf family. -/
inductive Arg where
  | str (s : String)
  | int (v : Int)
  deriving DecidableEq, Repr

/-- Hexadecimal digits of a C `int` read as `unsigned int` (32 bit), as the
conversions `%X` (upper case) and `%x` (lower case) print them. -/
def hexOf (upper : Bool) (v : Int) : List Char :=
  let ds := Nat.toDigits 16 (v % 4294967296).toNat
  if upper then ds.map Char.toUpper else ds

/-- Zero padding on the left up to a minimum field width (the `0` flag). -/
def zeroPad (width : Nat) (cs : List Char) : List Char :=
  List.replicate (width - cs.length) '0' ++ cs

/-- The printf directives that occur in `data_parser.c`: `%s`, `%X`, `%02x`
and `%ld`; every other character of the format is copied.  Surplus arguments
are ignored, as in C. -/
def vformat : List Char → List Arg → List Char
  | [], _ => []
  | c :: rest, args =>
    if c = '%' then
      match rest, args with
      | 's' :: rest1, Arg.str s :: args1 => s.data ++ vformat rest1 args1
      | 'X' :: rest1, Arg.int v :: args1 => hexOf true v ++ vformat rest1 args1
      | '0' :: '2' :: 'x' :: rest1, Arg.int v :: args1 =>
        zeroPad 2 (hexOf false v) ++ vformat rest1 args1
      | 'l' :: 'd' :: rest1, Arg.int v :: args1 => (toString v).data ++ vformat rest1 args1
      | _, _ => []
    else c :: vformat rest args

/-- Text written by `printf(fmt, args...)` / `fprintf(stream, fmt, args...)`. -/
def printf (fmt : String) (args : List Arg) : String :=
  String.mk (vformat fmt.data args)

/-- Contents of the destination after `snprintf(dst, size, fmt, args...)`: at
most `size - 1` characters of the rendering are stored before the terminator. -/
def snprintf (size : Nat) (fmt : String) (args : List Arg) : String :=
  String.mk ((vformat fmt.data args).take (size - 1))

/-- Length of the C string stored at the start of a byte sequence. -/
def strlen (s : List Nat) : Nat :=
  (s.takeWhile (fun b => b ≠ 0)).length

/-- Byte sequence after `memset(dst, c, n)`. -/
def memset (dst : List Nat) (c : Nat) (n : Nat) : List Nat :=
  List.replicate (min n dst.length) c ++ dst.drop n

/-- Byte sequence after `memcpy(dst, src, n)`. -/
def memcpy (dst src : List Nat) (n : Nat) : List Nat :=
  src.take n ++ dst.drop n

/-! ## Constants and configuration -/

def UT_BUF_SIZE : Nat := 11

def MIN (x y : Nat) : Nat := if x < y then x else y

@[match_pattern] def UT_MSG_TYPE_DC_VOLTS : Nat := 0x1
@[match_pattern] def UT_MSG_TYPE_AC_VOLTS : Nat := 0x2
@[match_pattern] def UT_MSG_TYPE_MVOLTS : Nat := 0x3
@[match_pattern] def UT_MSG_TYPE_OHMS : Nat := 0x4
@[match_pattern] def UT_MSG_TYPE_CAP : Nat := 0x5
@[match_pattern] def UT_MSG_TYPE_TEMP_C : Nat := 0x6
@[match_pattern] def UT_MSG_TYPE_U_AMPS : Nat := 0x7
@[match_pattern] def UT_MSG_TYPE_M_AMPS : Nat := 0x8
@[match_pattern] def UT_MSG_TYPE_AMPS : Nat := 0x9
@[match_pattern] def UT_MSG_TYPE_BEEP : Nat := 0xA
@[match_pattern] def UT_MSG_TYPE_DIODE : Nat := 0xB
@[match_pattern] def UT_MSG_TYPE_FREQ : Nat := 0xC
@[match_pattern] def UT_MSG_TYPE_TEMP_F : Nat := 0xD

/-- A byte of the frame (`uint8_t`). -/
abbrev Byte := Fin 256

/-- The buffer `uint8_t buf[]` of `UT_BUF_SIZE` bytes delivered per frame. -/
abbrev Frame := Fin 11 → Byte

/-- The macro `N_TO_VAL(N)`, `(N - 0x30)`, on a byte promoted to `int`. -/
def N_TO_VAL (n : Byte) : Int := (n.val : Int) - 0x30

/-- Size of the array `date_format`. -/
def DATE_FORMAT_SIZE : Nat := 42

/-- The four file-scope settings of `data_parser.c`. -/
structure Config where
  use_unix_time : Int
  use_csv_format : Int
  print_units : Int
  date_format : List Nat
  deriving DecidableEq, Repr

/-- Bytes of a string literal. -/
def bytesOf (s : String) : List Nat := s.data.map Char.toNat

/-- Initialiser of a `char[size]` array from a string literal: the remaining
bytes are zero. -/
def charArrayInit (size : Nat) (s : String) : List Nat :=
  bytesOf s ++ List.replicate (size - (bytesOf s).length) 0

/-- The initial values of the settings. -/
def Config.initial : Config where
  use_unix_time := 0
  use_csv_format := 0
  print_units := 1
  date_format := charArrayInit DATE_FORMAT_SIZE "%Y/%m/%d %H:%M:%S"

def parser_set_unix_time (cfg : Config) : Config :=
  { cfg with use_unix_time := 1 }

def parser_set_csv_format (cfg : Config) : Config :=
  { cfg with use_csv_format := 1 }

def parser_set_no_units (cfg : Config) : Config :=
  { cfg with print_units := 0 }

/-- The setter `parser_set_time_format(format)`; `none` is the null pointer,
`some f` points at the bytes `f` (a terminating zero follows them). -/
def parser_set_time_format (format : Option (List Nat)) (cfg : Config) : Config :=
  match format with
  | none => cfg
  | some f =>
    let cleared := memset cfg.date_format 0 DATE_FORMAT_SIZE
    { cfg with date_format := memcpy cleared f (MIN DATE_FORMAT_SIZE (strlen f)) }

def get_data_buf_size : Nat := UT_BUF_SIZE

/-- The C string held in a byte buffer: the bytes before the first zero. -/
def cString (buf : List Nat) : List Nat := buf.takeWhile (fun b => b ≠ 0)

/-! ## Output -/

/-- What the renderer obtains from the C library at the moment of the call:
the value stored by `time()` and the text `strftime` leaves in `date_buf` for
a given template. -/
structure Clock where
  time_now : Int
  strftime : List Nat → String

/-- The timestamp field printed first by `data_printer`. -/
def timestamp (cfg : Config) (clk : Clock) : String :=
  if cfg.use_unix_time ≠ 0 then
    printf "%ld" [Arg.int clk.time_now]
  else
    printf "%s" [Arg.str (clk.strftime cfg.date_format)]

/-- The delimiter chosen by `data_printer`. -/
def delimeter (cfg : Config) : String :=
  if cfg.use_csv_format ≠ 0 then "," else "\t"

/-- Text written to standard output by `data_printer(value, unit)`. -/
def data_printer (cfg : Config) (clk : Clock) (value unit : String) : String :=
  timestamp cfg clk
    ++ printf "%s%s" [Arg.str (delimeter cfg), Arg.str value]
    ++ (if cfg.print_units ≠ 0 then printf "%s%s" [Arg.str (delimeter cfg), Arg.str unit] else "")
    ++ printf "\n" []

/-- One output action of the decoder. -/
inductive Out where
  | data_printer (value unit : String)
  | stderr (text : String)
  deriving DecidableEq, Repr

/-- The five mantissa arguments passed to every `snprintf` call. -/
def mantissa (buf : Frame) : List Arg :=
  [Arg.int (N_TO_VAL (buf 0)), Arg.int (N_TO_VAL (buf 1)), Arg.int (N_TO_VAL (buf 2)),
   Arg.int (N_TO_VAL (buf 3)), Arg.int (N_TO_VAL (buf 4))]

/-! ## Handlers -/

/-- Volts, both AC and DC. -/
def handle_volts (buf : Frame) (dc : Int) : List Out :=
  let pre : String := if dc ≠ 0 then (if N_TO_VAL (buf 8) = 5 then "-" else "") else ""
  let fmt : String :=
    match N_TO_VAL (buf 5) with
    | 1 => "%s%X.%X%X%X%X"
    | 2 => "%s%X%X.%X%X%X"
    | 3 => "%s%X%X%X.%X%X"
    | 4 => "%s%X%X%X%X.%X"
    | _ => ""
  let sbuf := snprintf 15 fmt (Arg.str pre :: mantissa buf)
  [Out.data_printer sbuf "V"]

/-- Millivolts. -/
def handle_mvolts (buf : Frame) : List Out :=
  let pre : String := if N_TO_VAL (buf 8) = 4 then "-" else ""
  let sbuf := snprintf 15 "%s%X%X%X.%X%X" (Arg.str pre :: mantissa buf)
  [Out.data_printer sbuf "mV"]

/-- Resistance. -/
def handle_ohms (buf : Frame) : List Out :=
  if N_TO_VAL (buf 0) > 9 then
    [Out.data_printer "out of range" ""]
  else
    let sel : Option (String × String) :=
      match N_TO_VAL (buf 5) with
      | 1 => some ("%X%X%X.%X%X", "ohm")
      | 2 => some ("%X.%X%X%X%X", "kohm")
      | 3 => some ("%X%X.%X%X%X", "kohm")
      | 4 => some ("%X%X%X.%X%X", "kohm")
      | 5 => some ("%X.%X%X%X%X", "mohm")
      | 6 => some ("%X%X.%X%X%X", "mohm")
      | _ => none
    match sel with
    | none => [Out.data_printer "error" ""]
    | some (fmt, unit) => [Out.data_printer (snprintf 15 fmt (mantissa buf)) unit]

/-- Capacitance. -/
def handle_cap (buf : Frame) : List Out :=
  if N_TO_VAL (buf 0) > 9 then
    [Out.data_printer "out of range" ""]
  else
    let sel : Option (String × String) :=
      match N_TO_VAL (buf 5) with
      | 1 => some ("%X%X.%X%X%X", "nF")
      | 2 => some ("%X%X%X.%X%X", "nF")
      | 3 => some ("%X.%X%X%X%X", "uF")
      | 4 => some ("%X%X.%X%X%X", "uF")
      | 5 => some ("%X%X%X.%X%X", "uF")
      | 6 => some ("%X.%X%X%X%X", "mF")
      | _ => none
    match sel with
    | none => [Out.data_printer "error" ""]
    | some (fmt, unit) => [Out.data_printer (snprintf 15 fmt (mantissa buf)) unit]

/-- Temperature, both Celsius (`metric` non-zero) and Fahrenheit. -/
def handle_temperature (buf : Frame) (metric : Int) : List Out :=
  let unit : String := if metric ≠ 0 then "C" else "F"
  if N_TO_VAL (buf 0) > 9 then
    [Out.data_printer "out of range" unit]
  else
    [Out.data_printer (snprintf 15 "%X%X%X%X.%X" (mantissa buf)) unit]

/-- Microamps. -/
def handle_u_amps (buf : Frame) : List Out :=
  let pre : String := if N_TO_VAL (buf 8) = 4 then "-" else ""
  let sel : Option String :=
    match N_TO_VAL (buf 5) with
    | 0 => some "%s%X%X%X.%X%X"
    | 1 => some "%s%X%X%X%X.%X"
    | _ => none
  match sel with
  | none => [Out.data_printer "error" ""]
  | some fmt => [Out.data_printer (snprintf 15 fmt (Arg.str pre :: mantissa buf)) "uA"]

/-- Milliamps. -/
def handle_m_amps (buf : Frame) : List Out :=
  let pre : String := if N_TO_VAL (buf 8) = 4 then "-" else ""
  let sel : Option String :=
    match N_TO_VAL (buf 5) with
    | 0 => some "%s%X%X.%X%X%X"
    | 1 => some "%s%X%X%X.%X%X"
    | _ => none
  match sel with
  | none => [Out.data_printer "error" ""]
  | some fmt => [Out.data_printer (snprintf 15 fmt (Arg.str pre :: mantissa buf)) "mA"]

/-- Amps. -/
def handle_amps (buf : Frame) : List Out :=
  let pre : String := if N_TO_VAL (buf 8) = 4 then "-" else ""
  let sbuf := snprintf 15 "%s%X%X.%X%X%X" (Arg.str pre :: mantissa buf)
  [Out.data_printer sbuf "A"]

/-- Continuity beeper: open circuit or some resistance. -/
def handle_beep (buf : Frame) : List Out :=
  if N_TO_VAL (buf 0) = 0xA then
    [Out.data_printer "open" ""]
  else if N_TO_VAL (buf 5) = 0 then
    [Out.data_printer (snprintf 15 "%X%X%X.%X%X" (mantissa buf)) "ohm"]
  else
    [Out.data_printer "high resistance" ""]

/-- Diode test. -/
def handle_diode (buf : Frame) : List Out :=
  if N_TO_VAL (buf 0) = 0xA then
    [Out.data_printer "open" ""]
  else
    [Out.data_printer (snprintf 15 "%X.%X%X%X%X" (mantissa buf)) "mV"]

/-- Frequency. -/
def handle_freq (buf : Frame) : List Out :=
  let sel : String × String :=
    match N_TO_VAL (buf 5) with
    | 0 => ("%X%X.%X%X%X", "Hz")
    | 1 => ("%X%X%X.%X%X", "Hz")
    | 2 => ("%X.%X%X%X%X", "kHz")
    | 3 => ("%X%X.%X%X%X", "kHz")
    | 4 => ("%X%X%X.%X%X", "kHz")
    | 5 => ("%X.%X%X%X%X", "MHz")
    | 6 => ("%X%X.%X%X%X", "MHz")
    | 7 => ("%X%X%X.%X%X", "MHz")
    | _ => ("", "")
  [Out.data_printer (snprintf 15 sel.1 (mantissa buf)) sel.2]

/-- The value of `uint8_t msg_type = N_TO_VAL(buf[6])`. -/
def msg_type (buf : Frame) : Nat := (N_TO_VAL (buf 6) % 256).toNat

/-- Select the handler depending on the message type. -/
def data_parse_and_print (buf : Frame) : List Out :=
  match msg_type buf with
  | UT_MSG_TYPE_DC_VOLTS => handle_volts buf 1
  | UT_MSG_TYPE_AC_VOLTS => handle_volts buf 0
  | UT_MSG_TYPE_MVOLTS => handle_mvolts buf
  | UT_MSG_TYPE_OHMS => handle_ohms buf
  | UT_MSG_TYPE_CAP => handle_cap buf
  | UT_MSG_TYPE_TEMP_C => handle_temperature buf 1
  | UT_MSG_TYPE_TEMP_F => handle_temperature buf 0
  | UT_MSG_TYPE_U_AMPS => handle_u_amps buf
  | UT_MSG_TYPE_M_AMPS => handle_m_amps buf
  | UT_MSG_TYPE_AMPS => handle_amps buf
  | UT_MSG_TYPE_BEEP => handle_beep buf
  | UT_MSG_TYPE_DIODE => handle_diode buf
  | UT_MSG_TYPE_FREQ => handle_freq buf
  | t => [Out.stderr (printf "Unknown message type 0x%02x\n" [Arg.int t])]

/-- Text reaching standard output and the error stream for a trace. -/
def render (cfg : Config) (clk : Clock) : List Out → String × String
  | [] => ("", "")
  | Out.data_printer value unit :: rest =>
    let r := render cfg clk rest
    (data_printer cfg clk value unit ++ r.1, r.2)
  | Out.stderr text :: rest =>
    let r := render cfg clk rest
    (r.1, text ++ r.2)

/-- Frame of example 1 of the specification: digits 1 2 3 4 5, selector 2,
DC volts, sign nibble 5. -/
def frame_dc_volts : Frame := ![0x31, 0x32, 0x33, 0x34, 0x35, 0x32, 0x31, 0x30, 0x35, 0x0D, 0x0A]

/-! ## Vocabulary of the specification -/

/-- A byte that is an ASCII decimal digit. -/
def isDigitByte (b : Byte) : Prop := 0x30 ≤ b.val ∧ b.val ≤ 0x39

instance (b : Byte) : Decidable (isDigitByte b) := by
  unfold isDigitByte; infer_instance

/-- All five mantissa bytes (indices 0 to 4) are ASCII decimal digits. -/
def mantissaDecimal (buf : Frame) : Prop :=
  isDigitByte (buf 0) ∧ isDigitByte (buf 1) ∧ isDigitByte (buf 2) ∧ isDigitByte (buf 3)
    ∧ isDigitByte (buf 4)

instance (buf : Frame) : Decidable (mantissaDecimal buf) := by
  unfold mantissaDecimal; infer_instance

/-- The five mantissa bytes as the characters they are in ASCII. -/
def mantissaChars (buf : Frame) : List Char :=
  [Char.ofNat (buf 0).val, Char.ofNat (buf 1).val, Char.ofNat (buf 2).val,
   Char.ofNat (buf 3).val, Char.ofNat (buf 4).val]

/-- The first `k` characters, a decimal point, then the remaining ones. -/
def pointAfter (k : Nat) (ds : List Char) : String :=
  String.mk (ds.take k ++ '.' :: ds.drop k)

/-- An ohms frame whose first mantissa byte is the sentinel 0x3A and whose
range selector is 0. -/
def frame_ohms_sentinel : Frame :=
  ![0x3A, 0x30, 0x30, 0x30, 0x30, 0x30, 0x34, 0x30, 0x30, 0x0D, 0x0A]

/-- A capacitance frame whose first mantissa byte is the sentinel 0x3A. -/
def frame_cap_sentinel : Frame :=
  ![0x3A, 0x30, 0x30, 0x30, 0x30, 0x31, 0x35, 0x30, 0x30, 0x0D, 0x0A]

/-- A beep frame with digits 0 0 1 2 3 and range selector 0. -/
def frame_beep : Frame :=
  ![0x30, 0x30, 0x31, 0x32, 0x33, 0x30, 0x3A, 0x30, 0x30, 0x0D, 0x0A]

/-- An ohms frame with digits 0 0 0 0 0 and range selector 0. -/
def frame_ohms_sel0 : Frame :=
  ![0x30, 0x30, 0x30, 0x30, 0x30, 0x30, 0x34, 0x30, 0x30, 0x0D, 0x0A]

/-- A frequency frame with digits 1 2 3 4 5 and range selector 5. -/
def frame_freq : Frame :=
  ![0x31, 0x32, 0x33, 0x34, 0x35, 0x35, 0x3C, 0x30, 0x30, 0x0D, 0x0A]

/-- The frequency table as the specification lists it: for each range
selector, the number of digits before the point and the unit
(0: dd.ddd Hz, 1: ddd.dd Hz, 2: d.dddd kHz, 3: dd.ddd kHz, 4: ddd.dd kHz,
5: d.dddd MHz, 6: dd.ddd MHz, 7: ddd.dd MHz). -/
def freqTable : Nat → Nat × String
  | 0 => (2, "Hz")
  | 1 => (3, "Hz")
  | 2 => (1, "kHz")
  | 3 => (2, "kHz")
  | 4 => (3, "kHz")
  | 5 => (1, "MHz")
  | 6 => (2, "MHz")
  | _ => (3, "MHz")

/-- The four textual measurements that stand in place of a value. -/
def isTextual (value : String) : Prop :=
  value = "error" ∨ value = "out of range" ∨ value = "open" ∨ value = "high resistance"

instance (value : String) : Decidable (isTextual value) := by
  unfold isTextual; infer_instance

/-- A numeric value: a non-empty value string that is not one of the four
textual measurements. -/
def isNumeric (value : String) : Prop := value ≠ "" ∧ ¬ isTextual value

instance (value : String) : Decidable (isNumeric value) := by
  unfold isNumeric; infer_instance

/-- The value string begins with the sign character. -/
def startsWithMinus (value : String) : Prop := value.data.head? = some '-'

instance (value : String) : Decidable (startsWithMinus value) := by
  unfold startsWithMinus; infer_instance

/-- The sign rule of the specification: DC volts with byte 8 minus 0x30 equal
to 5, or millivolts, microamps, milliamps, amps with byte 8 minus 0x30 equal
to 4. -/
def signCondition (buf : Frame) : Prop :=
  (msg_type buf = UT_MSG_TYPE_DC_VOLTS ∧ N_TO_VAL (buf 8) = 5) ∨
  ((msg_type buf = UT_MSG_TYPE_MVOLTS ∨ msg_type buf = UT_MSG_TYPE_U_AMPS ∨
      msg_type buf = UT_MSG_TYPE_M_AMPS ∨ msg_type buf = UT_MSG_TYPE_AMPS) ∧
    N_TO_VAL (buf 8) = 4)

instance (buf : Frame) : Decidable (signCondition buf) := by
  unfold signCondition; infer_instance

/-- The message types whose handlers read the sign nibble. -/
def isSignedType (t : Nat) : Prop :=
  t = UT_MSG_TYPE_DC_VOLTS ∨ t = UT_MSG_TYPE_MVOLTS ∨ t = UT_MSG_TYPE_U_AMPS ∨
    t = UT_MSG_TYPE_M_AMPS ∨ t = UT_MSG_TYPE_AMPS

instance (t : Nat) : Decidable (isSignedType t) := by
  unfold isSignedType; infer_instance
/-- A DC-volts frame with digits 1 2 3 4 5 and range selector 0. -/
def frame_dc_volts_sel0 : Frame :=
  ![0x31, 0x32, 0x33, 0x34, 0x35, 0x30, 0x31, 0x30, 0x30, 0x0D, 0x0A]

/-- An AC-volts frame with digits 1 2 3 4 5 and range selector 0. -/
def frame_ac_volts_sel0 : Frame :=
  ![0x31, 0x32, 0x33, 0x34, 0x35, 0x30, 0x32, 0x30, 0x30, 0x0D, 0x0A]

/-- The lower-case hexadecimal digit character for a value below 16. -/
def lowerHexDigit (d : Nat) : Char := "0123456789abcdef".data.getD d '0'

/-- The diagnostic line for an 8-bit type value, as the specification words
it: the fixed text, then the value as two lower-case hexadecimal digits, then
the end of the line. -/
def unknownTypeLine (t : Nat) : String :=
  "Unknown message type 0x" ++ String.mk [lowerHexDigit (t / 16), lowerHexDigit (t % 16)] ++ "\n"

/-- A frame whose type byte 0x3E decodes to 14, not a recognized type. -/
def frame_unknown_type : Frame :=
  ![0x31, 0x32, 0x33, 0x34, 0x35, 0x32, 0x3E, 0x30, 0x35, 0x0D, 0x0A]
/-- A clock reading used in examples: epoch second 1640995200, rendered by
`strftime` as a fixed text whatever the template. -/
def clock_example : Clock where
  time_now := 1640995200
  strftime := fun _ => "2022/01/01 00:00:00"

/-- A Celsius temperature frame with digits 0 0 2 3 5. -/
def frame_temp_c : Frame :=
  ![0x30, 0x30, 0x32, 0x33, 0x35, 0x30, 0x36, 0x30, 0x30, 0x0D, 0x0A]

/-- The ohms table as the specification lists it: for each range selector, the
number of digits before the point and the unit (1: ddd.dd ohm, 2: d.dddd kohm,
3: dd.ddd kohm, 4: ddd.dd kohm, 5: d.dddd mohm, 6: dd.ddd mohm). -/
def ohmsTable : Nat → Nat × String
  | 1 => (3, "ohm")
  | 2 => (1, "kohm")
  | 3 => (2, "kohm")
  | 4 => (3, "kohm")
  | 5 => (1, "mohm")
  | _ => (2, "mohm")

/-- Frame of example 2 of the specification: digits 0 0 5 0 0, selector 1,
ohms. -/
def frame_ohms : Frame :=
  ![0x30, 0x30, 0x35, 0x30, 0x30, 0x31, 0x34, 0x30, 0x30, 0x0D, 0x0A]

/-- A microamps frame with digits 1 2 3 4 5, range selector 2 and sign
nibble 4. -/
def frame_u_amps_sel2 : Frame :=
  ![0x31, 0x32, 0x33, 0x34, 0x35, 0x32, 0x37, 0x30, 0x34, 0x0D, 0x0A]

/-- A frequency frame with digits 1 2 3 4 5 and range selector 8. -/
def frame_freq_sel8 : Frame :=
  ![0x31, 0x32, 0x33, 0x34, 0x35, 0x38, 0x3C, 0x30, 0x30, 0x0D, 0x0A]

/-- A microamps frame with digits 1 2 3 4 5, range selector 1 and sign
nibble 4. -/
def frame_u_amps : Frame :=
  ![0x31, 0x32, 0x33, 0x34, 0x35, 0x31, 0x37, 0x30, 0x34, 0x0D, 0x0A]

/-- The frame of example 1 with the three reserved bytes (indices 7, 9, 10)
replaced. -/
def frame_dc_volts_reserved : Frame :=
  ![0x31, 0x32, 0x33, 0x34, 0x35, 0x32, 0x31, 0xFF, 0x35, 0x00, 0x7F]

/-- The capacitance table of `handle_cap`: for each range selector, the number
of digits before the point and the unit (1: dd.ddd nF, 2: ddd.dd nF,
3: d.dddd uF, 4: dd.ddd uF, 5: ddd.dd uF, 6: d.dddd mF). -/
def capTable : Nat → Nat × String
  | 1 => (2, "nF")
  | 2 => (3, "nF")
  | 3 => (1, "uF")
  | 4 => (2, "uF")
  | 5 => (3, "uF")
  | _ => (1, "mF")

/-- Number of characters of a value before its decimal point. -/
def digitsBeforePoint (value : String) : Nat :=
  (value.data.takeWhile (fun c => c ≠ '.')).length

/-- Rank of the unit prefix: 0 for ohm, nF, Hz; 1 for kohm, uF, kHz; 2 for
mohm, mF, MHz. -/
def prefixRank (unit : String) : Nat :=
  if unit = "kohm" ∨ unit = "uF" ∨ unit = "kHz" then 1
  else if unit = "mohm" ∨ unit = "mF" ∨ unit = "MHz" then 2
  else 0

/-- The decimal scale of an emitted measurement: digits before the point plus
three times the rank of the unit prefix. -/
def scaleOf : List Out → Nat
  | [Out.data_printer value unit] => digitsBeforePoint value + 3 * prefixRank unit
  | _ => 0

/-- A capacitance frame with digits 1 2 3 4 5 and range selector 2. -/
def frame_cap_sel2 : Frame :=
  ![0x31, 0x32, 0x33, 0x34, 0x35, 0x32, 0x35, 0x30, 0x30, 0x0D, 0x0A]

/-- A capacitance frame with digits 1 2 3 4 5 and range selector 3. -/
def frame_cap_sel3 : Frame :=
  ![0x31, 0x32, 0x33, 0x34, 0x35, 0x33, 0x35, 0x30, 0x30, 0x0D, 0x0A]

/-- The sixteen unit strings listed by the specification. -/
def unitStrings : List String :=
  ["V", "mV", "ohm", "kohm", "mohm", "nF", "uF", "mF", "C", "F", "uA", "mA", "A", "Hz", "kHz",
   "MHz"]

/-- Whether byte 0 is a sentinel for a message type: beep and diode compare
it with 10, the other types test for a value above 9. -/
def isSentinel (t : Nat) (b : Byte) : Prop :=
  if t = UT_MSG_TYPE_BEEP ∨ t = UT_MSG_TYPE_DIODE then N_TO_VAL b = 0xA else N_TO_VAL b > 9

instance (t : Nat) (b : Byte) : Decidable (isSentinel t b) := by
  unfold isSentinel; infer_instance

/-- The unit of a measurement as a function of message type, range selector
and sentinel status of byte 0. -/
def unitFor (t : Nat) (sel : Int) (sentinel : Bool) : String :=
  match t with
  | 1 => "V"
  | 2 => "V"
  | 3 => "mV"
  | 4 =>
    if sentinel then "" else
      if sel = 1 then "ohm" else if sel = 2 ∨ sel = 3 ∨ sel = 4 then "kohm"
      else if sel = 5 ∨ sel = 6 then "mohm" else ""
  | 5 =>
    if sentinel then "" else
      if sel = 1 ∨ sel = 2 then "nF" else if sel = 3 ∨ sel = 4 ∨ sel = 5 then "uF"
      else if sel = 6 then "mF" else ""
  | 6 => "C"
  | 13 => "F"
  | 7 => if sel = 0 ∨ sel = 1 then "uA" else ""
  | 8 => if sel = 0 ∨ sel = 1 then "mA" else ""
  | 9 => "A"
  | 10 => if sentinel then "" else if sel = 0 then "ohm" else ""
  | 11 => if sentinel then "" else "mV"
  | 12 =>
    if sel = 0 ∨ sel = 1 then "Hz" else if sel = 2 ∨ sel = 3 ∨ sel = 4 then "kHz"
    else if sel = 5 ∨ sel = 6 ∨ sel = 7 then "MHz" else ""
  | _ => ""

/-- A frame with mantissa digits 1 2 3 4 5, the given range selector byte and
type byte, and sign nibble 0. -/
def frameOf (sel type : Byte) : Frame :=
  ![0x31, 0x32, 0x33, 0x34, 0x35, sel, type, 0x30, 0x30, 0x0D, 0x0A]

/-- The upper-case hexadecimal digit characters. -/
def upperHexChars : List Char :=
  ['0', '1', '2', '3', '4', '5', '6', '7', '8', '9', 'A', 'B', 'C', 'D', 'E', 'F']

/-- The measurement is the textual `out of range`, with some unit. -/
def emitsOutOfRange (out : List Out) : Prop :=
  ∃ unit, out = [Out.data_printer "out of range" unit]

/-- A beep frame whose byte 0 is 0x3B (value 11) and whose range selector
is 1. -/
def frame_beep_b_sel1 : Frame :=
  ![0x3B, 0x30, 0x30, 0x30, 0x30, 0x31, 0x3A, 0x30, 0x30, 0x0D, 0x0A]

/-- A diode frame whose byte 0 is 0x3C (value 12). -/
def frame_diode_c : Frame :=
  ![0x3C, 0x31, 0x32, 0x33, 0x34, 0x30, 0x3B, 0x30, 0x30, 0x0D, 0x0A]

/-- Six characters, exactly one of them a decimal point that is neither first
nor last, the other five decimal digits. -/
def fiveDigitsOnePoint (body : List Char) : Prop :=
  body.length = 6 ∧ body.count '.' = 1 ∧ body.head? ≠ some '.' ∧ body.getLast? ≠ some '.' ∧
    ∀ c ∈ body, c = '.' ∨ c.isDigit = true

instance (body : List Char) : Decidable (fiveDigitsOnePoint body) := by
  unfold fiveDigitsOnePoint; infer_instance

/-- The shape of a numeric value in the specification: an optional leading
`-`, then five decimal digits with one decimal point among them. -/
def signedFiveDigits (value : String) : Prop :=
  fiveDigitsOnePoint (if value.data.head? = some '-' then value.data.tail else value.data)

instance (value : String) : Decidable (signedFiveDigits value) := by
  unfold signedFiveDigits; infer_instance

/-- A DC-volts frame whose second mantissa byte is 0x3B (value 11), with range
selector 2. -/
def frame_dc_volts_hex : Frame :=
  ![0x31, 0x3B, 0x33, 0x34, 0x35, 0x32, 0x31, 0x30, 0x30, 0x0D, 0x0A]

/-- The five mantissa fields as `%X` prints them. -/
def hexFields (buf : Frame) : List (List Char) :=
  [hexOf true (N_TO_VAL (buf 0)), hexOf true (N_TO_VAL (buf 1)), hexOf true (N_TO_VAL (buf 2)),
   hexOf true (N_TO_VAL (buf 3)), hexOf true (N_TO_VAL (buf 4))]

/-- The fully rendered value before it is stored in `sbuf`: the sign, the
first `k` of the five `%X` fields, the decimal point, and the remaining
fields. -/
def fullRender (sign : String) (k : Nat) (buf : Frame) : List Char :=
  sign.data ++ ((hexFields buf).take k).flatten ++ '.' :: ((hexFields buf).drop k).flatten

/-- A millivolts frame whose five mantissa bytes are 0x20, below 0x30. -/
def frame_mvolts_low : Frame :=
  ![0x20, 0x20, 0x20, 0x20, 0x20, 0x30, 0x33, 0x30, 0x30, 0x0D, 0x0A]

/-- The bytes of a C string before its terminator: none of them is zero. -/
def isCString (f : List Nat) : Prop := ∀ b ∈ f, b ≠ 0

instance (f : List Nat) : Decidable (isCString f) := by
  unfold isCString; infer_instance

/-- A beep frame whose five mantissa bytes are 0x20, below 0x30, with range
selector 0. -/
def frame_beep_low : Frame :=
  ![0x20, 0x20, 0x20, 0x20, 0x20, 0x30, 0x3A, 0x30, 0x30, 0x0D, 0x0A]

/-- A beep frame whose mantissa bytes are 0x3B, 0x40, 0x30, 0x30, 0x30, with
range selector 0. -/
def frame_beep_hex : Frame :=
  ![0x3B, 0x40, 0x30, 0x30, 0x30, 0x30, 0x3A, 0x30, 0x30, 0x0D, 0x0A]

/-! ## Auxiliary lemmas -/

theorem hexOf_small (n : Nat) (h : n ≤ 9) : hexOf true (n : Int) = [Char.ofNat (48 + n)] := by
  interval_cases n <;> decide

theorem hexOf_digit (b : Byte) (h : isDigitByte b) :
    hexOf true (N_TO_VAL b) = [Char.ofNat b.val] := by
  obtain ⟨h1, h2⟩ := h
  have e : N_TO_VAL b = ((b.val - 48 : Nat) : Int) := by
    unfold N_TO_VAL; omega
  rw [e, hexOf_small _ (by omega)]
  congr 2
  omega

theorem msg_type_of_val (buf : Frame) (t : Nat) (h : N_TO_VAL (buf 6) = (t : Int))
    (ht : t < 256) : msg_type buf = t := by
  unfold msg_type
  rw [h]
  omega

theorem dispatch_ohms (buf : Frame) (h : N_TO_VAL (buf 6) = 4) :
    data_parse_and_print buf = handle_ohms buf := by
  have ht : msg_type buf = 4 := msg_type_of_val buf 4 (by simpa using h) (by norm_num)
  unfold data_parse_and_print; rw [ht]

theorem dispatch_cap (buf : Frame) (h : N_TO_VAL (buf 6) = 5) :
    data_parse_and_print buf = handle_cap buf := by
  have ht : msg_type buf = 5 := msg_type_of_val buf 5 (by simpa using h) (by norm_num)
  unfold data_parse_and_print; rw [ht]

theorem dispatch_beep (buf : Frame) (h : N_TO_VAL (buf 6) = 10) :
    data_parse_and_print buf = handle_beep buf := by
  have ht : msg_type buf = 10 := msg_type_of_val buf 10 (by simpa using h) (by norm_num)
  unfold data_parse_and_print; rw [ht]

theorem dispatch_freq (buf : Frame) (h : N_TO_VAL (buf 6) = 12) :
    data_parse_and_print buf = handle_freq buf := by
  have ht : msg_type buf = 12 := msg_type_of_val buf 12 (by simpa using h) (by norm_num)
  unfold data_parse_and_print; rw [ht]

theorem toDigitsCore_all (P : Char → Prop) (hP : ∀ d, P (Nat.digitChar d)) :
    ∀ (fuel n : Nat) (acc : List Char), (∀ c ∈ acc, P c) →
      ∀ c ∈ Nat.toDigitsCore 16 fuel n acc, P c := by
  intro fuel
  induction fuel with
  | zero =>
    intro n acc h c hc
    simpa [Nat.toDigitsCore] using h c (by simpa [Nat.toDigitsCore] using hc)
  | succ k ih =>
    intro n acc h c hc
    simp only [Nat.toDigitsCore] at hc
    split at hc
    · rcases List.mem_cons.mp hc with rfl | hc
      · exact hP _
      · exact h c hc
    · refine ih _ _ ?_ c hc
      intro c hc
      rcases List.mem_cons.mp hc with rfl | hc
      · exact hP _
      · exact h c hc

theorem toDigitsCore_ne_nil : ∀ (fuel n : Nat) (acc : List Char), acc ≠ [] →
    Nat.toDigitsCore 16 fuel n acc ≠ [] := by
  intro fuel
  induction fuel with
  | zero => intro n acc h; simpa [Nat.toDigitsCore] using h
  | succ k ih =>
    intro n acc h
    simp only [Nat.toDigitsCore]
    split
    · simp
    · exact ih _ _ (by simp)

theorem toDigits_ne_nil (n : Nat) : Nat.toDigits 16 n ≠ [] := by
  unfold Nat.toDigits
  simp only [Nat.toDigitsCore]
  split
  · simp
  · exact toDigitsCore_ne_nil _ _ _ (by simp)

theorem digitChar_upper_ne_minus (d : Nat) : (Nat.digitChar d).toUpper ≠ '-' := by
  by_cases h : d < 16
  · interval_cases d <;> decide
  · have e : Nat.digitChar d = '*' := by
      unfold Nat.digitChar
      repeat rw [if_neg (by omega)]
    rw [e]; decide

theorem hexOf_ne_nil (v : Int) : hexOf true v ≠ [] := by
  simp [hexOf, toDigits_ne_nil]

theorem hexOf_no_minus (v : Int) : ∀ c ∈ hexOf true v, c ≠ '-' := by
  intro c hc
  simp only [hexOf, if_true, List.mem_map] at hc
  obtain ⟨a, ha, rfl⟩ := hc
  exact toDigitsCore_all (fun a => a.toUpper ≠ '-') digitChar_upper_ne_minus _ _ []
    (by simp) a ha

theorem hexOf_head (v : Int) : ∃ c cs, hexOf true v = c :: cs ∧ c ≠ '-' := by
  cases h : hexOf true v with
  | nil => exact absurd h (hexOf_ne_nil v)
  | cons c cs => exact ⟨c, cs, rfl, hexOf_no_minus v c (by simp [h])⟩

theorem handle_ohms_cases (buf : Frame) :
    handle_ohms buf =
      if N_TO_VAL (buf 0) > 9 then [Out.data_printer "out of range" ""]
      else match N_TO_VAL (buf 5) with
        | 1 => [Out.data_printer (snprintf 15 "%X%X%X.%X%X" (mantissa buf)) "ohm"]
        | 2 => [Out.data_printer (snprintf 15 "%X.%X%X%X%X" (mantissa buf)) "kohm"]
        | 3 => [Out.data_printer (snprintf 15 "%X%X.%X%X%X" (mantissa buf)) "kohm"]
        | 4 => [Out.data_printer (snprintf 15 "%X%X%X.%X%X" (mantissa buf)) "kohm"]
        | 5 => [Out.data_printer (snprintf 15 "%X.%X%X%X%X" (mantissa buf)) "mohm"]
        | 6 => [Out.data_printer (snprintf 15 "%X%X.%X%X%X" (mantissa buf)) "mohm"]
        | _ => [Out.data_printer "error" ""] := by
  unfold handle_ohms
  split
  · rfl
  · generalize N_TO_VAL (buf 5) = x
    split <;> simp_all

theorem handle_cap_cases (buf : Frame) :
    handle_cap buf =
      if N_TO_VAL (buf 0) > 9 then [Out.data_printer "out of range" ""]
      else match N_TO_VAL (buf 5) with
        | 1 => [Out.data_printer (snprintf 15 "%X%X.%X%X%X" (mantissa buf)) "nF"]
        | 2 => [Out.data_printer (snprintf 15 "%X%X%X.%X%X" (mantissa buf)) "nF"]
        | 3 => [Out.data_printer (snprintf 15 "%X.%X%X%X%X" (mantissa buf)) "uF"]
        | 4 => [Out.data_printer (snprintf 15 "%X%X.%X%X%X" (mantissa buf)) "uF"]
        | 5 => [Out.data_printer (snprintf 15 "%X%X%X.%X%X" (mantissa buf)) "uF"]
        | 6 => [Out.data_printer (snprintf 15 "%X.%X%X%X%X" (mantissa buf)) "mF"]
        | _ => [Out.data_printer "error" ""] := by
  unfold handle_cap
  split
  · rfl
  · generalize N_TO_VAL (buf 5) = x
    split <;> simp_all

theorem handle_u_amps_cases (buf : Frame) :
    handle_u_amps buf =
      match N_TO_VAL (buf 5) with
      | 0 => [Out.data_printer (snprintf 15 "%s%X%X%X.%X%X"
          (Arg.str (if N_TO_VAL (buf 8) = 4 then "-" else "") :: mantissa buf)) "uA"]
      | 1 => [Out.data_printer (snprintf 15 "%s%X%X%X%X.%X"
          (Arg.str (if N_TO_VAL (buf 8) = 4 then "-" else "") :: mantissa buf)) "uA"]
      | _ => [Out.data_printer "error" ""] := by
  simp only [handle_u_amps]
  generalize N_TO_VAL (buf 5) = x
  generalize (if N_TO_VAL (buf 8) = 4 then ("-" : String) else "") = pre
  split <;> rename_i heq <;> split at heq <;> simp_all

theorem handle_m_amps_cases (buf : Frame) :
    handle_m_amps buf =
      match N_TO_VAL (buf 5) with
      | 0 => [Out.data_printer (snprintf 15 "%s%X%X.%X%X%X"
          (Arg.str (if N_TO_VAL (buf 8) = 4 then "-" else "") :: mantissa buf)) "mA"]
      | 1 => [Out.data_printer (snprintf 15 "%s%X%X%X.%X%X"
          (Arg.str (if N_TO_VAL (buf 8) = 4 then "-" else "") :: mantissa buf)) "mA"]
      | _ => [Out.data_printer "error" ""] := by
  simp only [handle_m_amps]
  generalize N_TO_VAL (buf 5) = x
  generalize (if N_TO_VAL (buf 8) = 4 then ("-" : String) else "") = pre
  split <;> rename_i heq <;> split at heq <;> simp_all

theorem head_unsigned (v : Int) (rest : List Char) :
    (List.take 14 (hexOf true v ++ rest)).head? ≠ some '-' := by
  obtain ⟨c, cs, e, hc⟩ := hexOf_head v
  rw [e]
  simp [hc]

theorem sign_iff_of_numeric (buf : Frame) (value unit : String)
    (hout : Out.data_printer value unit ∈ data_parse_and_print buf)
    (hnum : isNumeric value) : startsWithMinus value ↔ signCondition buf := by
  unfold data_parse_and_print at hout
  split at hout
  all_goals try simp only [handle_volts, handle_mvolts, handle_ohms_cases, handle_cap_cases,
    handle_temperature, handle_u_amps_cases, handle_m_amps_cases, handle_amps, handle_beep,
    handle_diode, handle_freq, ne_eq, one_ne_zero, not_true_eq_false, not_false_eq_true,
    ite_true, ite_false] at hout
  all_goals repeat' split at hout
  all_goals try simp [snprintf, vformat, mantissa] at hout
  all_goals try obtain ⟨rfl, rfl⟩ := hout
  all_goals first
    | exact absurd hnum (by decide)
    | simp [startsWithMinus, head_unsigned, signCondition, *, UT_MSG_TYPE_DC_VOLTS,
        UT_MSG_TYPE_MVOLTS, UT_MSG_TYPE_U_AMPS, UT_MSG_TYPE_M_AMPS, UT_MSG_TYPE_AMPS]
theorem msg_type_update8 (buf : Frame) (b : Byte) :
    msg_type (Function.update buf 8 b) = msg_type buf := by
  simp [msg_type, Function.update_apply]

theorem mantissa_update8 (buf : Frame) (b : Byte) :
    mantissa (Function.update buf 8 b) = mantissa buf := by
  simp [mantissa, Function.update_apply]

theorem byte8_irrelevant (buf : Frame) (h : ¬ isSignedType (msg_type buf)) (b : Byte) :
    data_parse_and_print (Function.update buf 8 b) = data_parse_and_print buf := by
  unfold data_parse_and_print
  rw [msg_type_update8]
  split
  all_goals first
    | (exfalso; apply h; simp [isSignedType, *, UT_MSG_TYPE_DC_VOLTS,
        UT_MSG_TYPE_MVOLTS, UT_MSG_TYPE_U_AMPS, UT_MSG_TYPE_M_AMPS, UT_MSG_TYPE_AMPS]; done)
    | simp [handle_volts, handle_ohms, handle_cap, handle_temperature, handle_beep,
        handle_diode, handle_freq, mantissa_update8, Function.update_apply]

theorem no_sign_of_unsigned (buf : Frame) (h : ¬ isSignedType (msg_type buf)) (value unit : String)
    (hout : Out.data_printer value unit ∈ data_parse_and_print buf) :
    ¬ startsWithMinus value := by
  unfold data_parse_and_print at hout
  split at hout
  all_goals try simp only [handle_volts, handle_mvolts, handle_ohms_cases, handle_cap_cases,
    handle_temperature, handle_u_amps_cases, handle_m_amps_cases, handle_amps, handle_beep,
    handle_diode, handle_freq, ne_eq, one_ne_zero, not_true_eq_false, not_false_eq_true,
    ite_true, ite_false] at hout
  all_goals repeat' split at hout
  all_goals try simp [snprintf, vformat, mantissa] at hout
  all_goals try obtain ⟨rfl, rfl⟩ := hout
  all_goals first
    | (exfalso; apply h; simp [isSignedType, *, UT_MSG_TYPE_DC_VOLTS,
        UT_MSG_TYPE_MVOLTS, UT_MSG_TYPE_U_AMPS, UT_MSG_TYPE_M_AMPS, UT_MSG_TYPE_AMPS]; done)
    | decide
    | simp [startsWithMinus, head_unsigned]

/-! ## Claims -/

/-- C1: a DC-volts frame (type field 1) with range selector `s` in 1..4 and
decimal mantissa bytes is dispatched to `handle_volts`, which emits unit `V`
and the value: `-` exactly when byte 8 minus 0x30 is 5, then the first `s`
mantissa digits, a point, and the remaining `5 - s` digits. -/
theorem C1_dc_volts_value (buf : Frame) (s : Nat)
    (htype : N_TO_VAL (buf 6) = 1) (hsel : N_TO_VAL (buf 5) = (s : Int))
    (h1 : 1 ≤ s) (h4 : s ≤ 4) (hd : mantissaDecimal buf) :
    data_parse_and_print buf = handle_volts buf 1 ∧
    handle_volts buf 1 =
      [Out.data_printer ((if N_TO_VAL (buf 8) = 5 then "-" else "")
        ++ pointAfter s (mantissaChars buf)) "V"] := by
  have ht : msg_type buf = 1 := msg_type_of_val buf 1 (by simpa using htype) (by norm_num)
  obtain ⟨d0, d1, d2, d3, d4⟩ := hd
  refine ⟨by unfold data_parse_and_print; rw [ht], ?_⟩
  simp only [handle_volts, hsel]
  interval_cases s <;>
    simp [snprintf, vformat, mantissa, hexOf_digit, d0, d1, d2, d3, d4, pointAfter,
      mantissaChars] <;>
    split <;> rfl

/-- C1, example 1 of the specification: digits 1 2 3 4 5, selector 2, DC volts,
sign nibble 5 give the value `-12.345` with unit `V`. -/
theorem C1_dc_volts_value_witness :
    data_parse_and_print frame_dc_volts = handle_volts frame_dc_volts 1 ∧
    handle_volts frame_dc_volts 1 = [Out.data_printer "-12.345" "V"] :=
  C1_dc_volts_value frame_dc_volts 2 (by decide) (by decide) (by decide) (by decide)
    (by decide)

/-- C2, the claim as stated fails: this ohms frame has range selector 0, outside
1..6, but byte 0 is the sentinel 0x3A and the output is `out of range`, not
`error`. -/
theorem C2_ohms_error_counterexample :
    N_TO_VAL (frame_ohms_sentinel 6) = 4 ∧
    ¬ (1 ≤ N_TO_VAL (frame_ohms_sentinel 5) ∧ N_TO_VAL (frame_ohms_sentinel 5) ≤ 6) ∧
    data_parse_and_print frame_ohms_sentinel = [Out.data_printer "out of range" ""] ∧
    data_parse_and_print frame_ohms_sentinel ≠ [Out.data_printer "error" ""] := by
  decide

/-- C2, amended: for an ohms frame (type field 4) with range selector outside
1..6 the output is exactly `("error", "")` when byte 0 minus 0x30 is at most 9,
whatever the other bytes are; when byte 0 minus 0x30 exceeds 9 the output is
`("out of range", "")`. -/
theorem C2_ohms_error (buf : Frame) (htype : N_TO_VAL (buf 6) = 4)
    (hsel : ¬ (1 ≤ N_TO_VAL (buf 5) ∧ N_TO_VAL (buf 5) ≤ 6)) :
    (N_TO_VAL (buf 0) ≤ 9 → data_parse_and_print buf = [Out.data_printer "error" ""]) ∧
    (9 < N_TO_VAL (buf 0) →
      data_parse_and_print buf = [Out.data_printer "out of range" ""]) := by
  rw [dispatch_ohms buf htype]
  unfold handle_ohms
  constructor
  · intro h0
    rw [if_neg (by omega)]
    split <;> first | omega | rfl
  · intro h0
    rw [if_pos (by omega)]

/-- C2, amended, at a concrete frame: an ohms frame with digits 0 0 0 0 0 and
selector 0 gives `("error", "")`. -/
theorem C2_ohms_error_witness :
    data_parse_and_print frame_ohms_sel0 = [Out.data_printer "error" ""] :=
  (C2_ohms_error frame_ohms_sel0 (by decide) (by decide)).1 (by decide)

/-- C3: an ohms frame (type field 4) or capacitance frame (type field 5) whose
byte 0 decodes to 10 yields exactly `("out of range", "")`, for every range
selector and all other bytes. -/
theorem C3_out_of_range (buf : Frame)
    (htype : N_TO_VAL (buf 6) = 4 ∨ N_TO_VAL (buf 6) = 5)
    (h0 : N_TO_VAL (buf 0) = 10) :
    data_parse_and_print buf = [Out.data_printer "out of range" ""] := by
  rcases htype with h | h
  · rw [dispatch_ohms buf h]; unfold handle_ohms; rw [if_pos (by omega)]
  · rw [dispatch_cap buf h]; unfold handle_cap; rw [if_pos (by omega)]

/-- C3, example 3 of the specification: a capacitance frame with byte 0 equal
to 0x3A. -/
theorem C3_out_of_range_witness :
    data_parse_and_print frame_cap_sentinel = [Out.data_printer "out of range" ""] :=
  C3_out_of_range frame_cap_sentinel (Or.inr (by decide)) (by decide)

/-- C5: a frequency frame (type field 12) with range selector `s` in 0..7 and
decimal mantissa bytes emits the digits with the point placed as the table of
the specification says and the unit of that table; the value is not `error`
and the unit is not empty. -/
theorem C5_freq_table (buf : Frame) (s : Nat)
    (htype : N_TO_VAL (buf 6) = 12) (hsel : N_TO_VAL (buf 5) = (s : Int)) (h7 : s ≤ 7)
    (hd : mantissaDecimal buf) :
    data_parse_and_print buf =
      [Out.data_printer (pointAfter (freqTable s).1 (mantissaChars buf)) (freqTable s).2] ∧
    pointAfter (freqTable s).1 (mantissaChars buf) ≠ "error" ∧
    (freqTable s).2 ≠ "" := by
  obtain ⟨d0, d1, d2, d3, d4⟩ := hd
  rw [dispatch_freq buf htype]
  simp only [handle_freq, hsel]
  interval_cases s <;>
    refine ⟨?_, ?_, by decide⟩ <;>
    simp [snprintf, vformat, mantissa, hexOf_digit, d0, d1, d2, d3, d4, pointAfter,
      mantissaChars, freqTable]
  all_goals
    intro h
    have h2 := congrArg String.length h
    change (6 : Nat) = 5 at h2
    omega

/-- C5 at a concrete frame: digits 1 2 3 4 5 with selector 5 give
`1.2345 MHz`. -/
theorem C5_freq_table_witness :
    data_parse_and_print frame_freq = [Out.data_printer "1.2345" "MHz"] :=
  (C5_freq_table frame_freq 5 (by decide) (by decide) (by decide) (by decide)).1.trans
    (by decide)

/-- C6: the sign rule.  Whenever a numeric value is emitted, it starts with `-`
exactly when the type is DC volts and byte 8 minus 0x30 is 5, or the type is
millivolts, microamps, milliamps or amps and byte 8 minus 0x30 is 4.  For
every other type (AC volts included) the output is the same for every value
of byte 8 and no emitted value starts with `-`. -/
theorem C6_sign_rule (buf : Frame) :
    (∀ value unit, Out.data_printer value unit ∈ data_parse_and_print buf →
      isNumeric value → (startsWithMinus value ↔ signCondition buf)) ∧
    (¬ isSignedType (msg_type buf) →
      (∀ b : Byte, data_parse_and_print (Function.update buf 8 b) = data_parse_and_print buf) ∧
      (∀ value unit, Out.data_printer value unit ∈ data_parse_and_print buf →
        ¬ startsWithMinus value)) :=
  ⟨fun value unit hout hnum => sign_iff_of_numeric buf value unit hout hnum,
   fun h => ⟨fun b => byte8_irrelevant buf h b,
     fun value unit hout => no_sign_of_unsigned buf h value unit hout⟩⟩

/-- C6 at the DC-volts frame of example 1: the numeric value `-12.345` is
emitted, it starts with `-`, and the sign condition holds. -/
theorem C6_sign_rule_witness :
    startsWithMinus "-12.345" ↔ signCondition frame_dc_volts :=
  (C6_sign_rule frame_dc_volts).1 "-12.345" "V" (by decide) (by decide)

/-- C7, the code at the failing inputs: a DC-volts frame and an AC-volts frame
with range selector 0 emit an empty value with unit `V`, not `error`. -/
theorem C7_volts_unmapped_selector :
    N_TO_VAL (frame_dc_volts_sel0 6) = 1 ∧ N_TO_VAL (frame_dc_volts_sel0 5) = 0 ∧
    data_parse_and_print frame_dc_volts_sel0 = [Out.data_printer "" "V"] ∧
    N_TO_VAL (frame_ac_volts_sel0 6) = 2 ∧ N_TO_VAL (frame_ac_volts_sel0 5) = 0 ∧
    data_parse_and_print frame_ac_volts_sel0 = [Out.data_printer "" "V"] := by
  decide

theorem unknown_line (t : Nat) (h : t < 256) :
    printf "Unknown message type 0x%02x\n" [Arg.int (t : Int)] = unknownTypeLine t := by
  interval_cases t <;> decide

theorem msg_type_lt (buf : Frame) : msg_type buf < 256 := by
  unfold msg_type
  omega

theorem one_measurement (buf : Frame) (h : 1 ≤ msg_type buf ∧ msg_type buf ≤ 13) :
    ∃ value unit, data_parse_and_print buf = [Out.data_printer value unit] := by
  unfold data_parse_and_print
  split
  all_goals try simp only [handle_volts, handle_mvolts, handle_ohms_cases, handle_cap_cases,
    handle_temperature, handle_u_amps_cases, handle_m_amps_cases, handle_amps, handle_beep,
    handle_diode, handle_freq]
  all_goals repeat' split
  all_goals first
    | exact ⟨_, _, rfl⟩
    | (exfalso
       obtain ⟨h1, h13⟩ := h
       generalize msg_type buf = t at *
       interval_cases t <;> simp_all)

theorem one_diagnostic (buf : Frame) (h : ¬ (1 ≤ msg_type buf ∧ msg_type buf ≤ 13)) :
    data_parse_and_print buf = [Out.stderr (unknownTypeLine (msg_type buf))] := by
  unfold data_parse_and_print
  split
  all_goals first
    | (exfalso; omega)
    | rw [unknown_line _ (msg_type_lt buf)]
/-- C8: `data_parse_and_print` produces exactly one output per frame.  If the
type field, byte 6 minus 0x30 as an 8-bit value, is in 1..13, the trace is one
`data_printer` call and no diagnostic; otherwise it is no measurement and the
one diagnostic line `Unknown message type 0x` followed by the value as two
lower-case hexadecimal digits. -/
theorem C8_one_output (buf : Frame) :
    (msg_type buf : Int) = N_TO_VAL (buf 6) % 256 ∧
    ((1 ≤ msg_type buf ∧ msg_type buf ≤ 13) →
      ∃ value unit, data_parse_and_print buf = [Out.data_printer value unit]) ∧
    (¬ (1 ≤ msg_type buf ∧ msg_type buf ≤ 13) →
      data_parse_and_print buf = [Out.stderr (unknownTypeLine (msg_type buf))]) :=
  ⟨by unfold msg_type; omega, one_measurement buf, one_diagnostic buf⟩

/-- C8 at concrete frames: the DC-volts frame of example 1 gives one
measurement, and type byte 0x3E gives the line `Unknown message type 0x0e`. -/
theorem C8_one_output_witness :
    data_parse_and_print frame_dc_volts = [Out.data_printer "-12.345" "V"] ∧
    data_parse_and_print frame_unknown_type = [Out.stderr "Unknown message type 0x0e\n"] :=
  ⟨by decide, ((C8_one_output frame_unknown_type).2.2 (by decide)).trans (by decide)⟩

/-- C9: the line rendered by `data_printer` is timestamp, delimiter, value,
delimiter, unit, newline when unit display is enabled, and timestamp,
delimiter, value, newline when it is disabled, the delimiter being `,` when the
comma format was selected and a tab otherwise.  With unit display disabled the
line does not depend on the unit. -/
theorem C9_data_printer (cfg : Config) (clk : Clock) (value unit : String) :
    (cfg.print_units ≠ 0 →
      data_printer cfg clk value unit =
        timestamp cfg clk ++ (if cfg.use_csv_format ≠ 0 then "," else "\t") ++ value
          ++ (if cfg.use_csv_format ≠ 0 then "," else "\t") ++ unit ++ "\n") ∧
    (cfg.print_units = 0 →
      data_printer cfg clk value unit =
        timestamp cfg clk ++ (if cfg.use_csv_format ≠ 0 then "," else "\t") ++ value ++ "\n" ∧
      ∀ unit2, data_printer cfg clk value unit2 = data_printer cfg clk value unit) := by
  constructor
  · intro h
    simp [data_printer, h, printf, vformat, delimeter]
    apply String.ext
    simp [String.data_append, List.append_assoc]
  · intro h
    simp [data_printer, h, printf, vformat, delimeter]
    apply String.ext
    simp [String.data_append, List.append_assoc]
/-- C9 with the comma format selected and unit display disabled: the line
ends right after the value. -/
theorem C9_data_printer_witness :
    data_printer (parser_set_no_units (parser_set_csv_format Config.initial)) clock_example
      "-12.345" "V" = "2022/01/01 00:00:00,-12.345\n" :=
  ((C9_data_printer (parser_set_no_units (parser_set_csv_format Config.initial)) clock_example
    "-12.345" "V").2 (by decide)).1.trans (by decide)

/-- C10, the claim as stated fails for the empty string: from the initial
state, `parser_set_time_format("")` changes the stored template, which is then
the empty string and no longer the default. -/
theorem C10_empty_template_counterexample :
    cString Config.initial.date_format = bytesOf "%Y/%m/%d %H:%M:%S" ∧
    (parser_set_time_format (some []) Config.initial).date_format
      ≠ Config.initial.date_format ∧
    cString (parser_set_time_format (some []) Config.initial).date_format = [] := by
  decide

/-- C10, amended: `parser_set_time_format` ignores a null template, leaving
every setting unchanged (from the initial state the template is still the
default); called with the empty string it leaves the other three settings
unchanged and fills the 42-byte template buffer with zero bytes, so the stored
template is the empty string. -/
theorem C10_null_template_ignored (cfg : Config)
    (hlen : cfg.date_format.length = DATE_FORMAT_SIZE) :
    parser_set_time_format none cfg = cfg ∧
    cString (parser_set_time_format none Config.initial).date_format
      = bytesOf "%Y/%m/%d %H:%M:%S" ∧
    parser_set_time_format (some []) cfg
      = { cfg with date_format := List.replicate DATE_FORMAT_SIZE 0 } ∧
    cString (parser_set_time_format (some []) cfg).date_format = [] := by
  refine ⟨rfl, by decide, ?_, ?_⟩
  · simp [parser_set_time_format, memset, memcpy, MIN, strlen, hlen, DATE_FORMAT_SIZE]
  · simp [parser_set_time_format, memset, memcpy, MIN, strlen, hlen, DATE_FORMAT_SIZE, cString]

/-- C10, amended, at the initial state. -/
theorem C10_null_template_ignored_witness :
    parser_set_time_format none Config.initial = Config.initial ∧
    (parser_set_time_format (some []) Config.initial).date_format = List.replicate 42 0 :=
  ⟨(C10_null_template_ignored Config.initial (by decide)).1,
   congrArg Config.date_format (C10_null_template_ignored Config.initial (by decide)).2.2.1⟩

theorem dispatch_temp_c (buf : Frame) (h : N_TO_VAL (buf 6) = 6) :
    data_parse_and_print buf = handle_temperature buf 1 := by
  have ht : msg_type buf = 6 := msg_type_of_val buf 6 (by simpa using h) (by norm_num)
  unfold data_parse_and_print; rw [ht]

theorem dispatch_temp_f (buf : Frame) (h : N_TO_VAL (buf 6) = 13) :
    data_parse_and_print buf = handle_temperature buf 0 := by
  have ht : msg_type buf = 13 := msg_type_of_val buf 13 (by simpa using h) (by norm_num)
  unfold data_parse_and_print; rw [ht]

theorem dispatch_u_amps (buf : Frame) (h : N_TO_VAL (buf 6) = 7) :
    data_parse_and_print buf = handle_u_amps buf := by
  have ht : msg_type buf = 7 := msg_type_of_val buf 7 (by simpa using h) (by norm_num)
  unfold data_parse_and_print; rw [ht]

theorem dispatch_m_amps (buf : Frame) (h : N_TO_VAL (buf 6) = 8) :
    data_parse_and_print buf = handle_m_amps buf := by
  have ht : msg_type buf = 8 := msg_type_of_val buf 8 (by simpa using h) (by norm_num)
  unfold data_parse_and_print; rw [ht]

theorem dispatch_diode (buf : Frame) (h : N_TO_VAL (buf 6) = 11) :
    data_parse_and_print buf = handle_diode buf := by
  have ht : msg_type buf = 11 := msg_type_of_val buf 11 (by simpa using h) (by norm_num)
  unfold data_parse_and_print; rw [ht]

theorem handle_temperature_value (buf : Frame) (metric : Int) (hd : mantissaDecimal buf) :
    handle_temperature buf metric =
      [Out.data_printer (pointAfter 4 (mantissaChars buf)) (if metric ≠ 0 then "C" else "F")] := by
  obtain ⟨d0, d1, d2, d3, d4⟩ := hd
  have h0 : ¬ N_TO_VAL (buf 0) > 9 := by
    have := d0.2; unfold N_TO_VAL; omega
  simp [handle_temperature, h0, snprintf, vformat, mantissa, hexOf_digit, d0, d1, d2, d3, d4,
    pointAfter, mantissaChars]

theorem handle_temperature_update (buf : Frame) (metric : Int) (b5 b8 : Byte) :
    handle_temperature (Function.update (Function.update buf 5 b5) 8 b8) metric
      = handle_temperature buf metric := by
  simp [handle_temperature, mantissa, Function.update_apply]

theorem msg_type_update58 (buf : Frame) (b5 b8 : Byte) :
    msg_type (Function.update (Function.update buf 5 b5) 8 b8) = msg_type buf := by
  simp [msg_type, Function.update_apply]

/-- C13: for a temperature frame (type field 6, unit `C`, or 13, unit `F`),
byte 0 decoding to 10 gives `out of range` with that unit, decimal mantissa
bytes give the digits as dddd.d with that unit, and neither the range selector
(byte 5) nor the sign nibble (byte 8) changes the output. -/
theorem C13_temperature (buf : Frame)
    (htype : N_TO_VAL (buf 6) = 6 ∨ N_TO_VAL (buf 6) = 13) :
    (N_TO_VAL (buf 0) = 10 →
      data_parse_and_print buf =
        [Out.data_printer "out of range" (if N_TO_VAL (buf 6) = 6 then "C" else "F")]) ∧
    (mantissaDecimal buf →
      data_parse_and_print buf =
        [Out.data_printer (pointAfter 4 (mantissaChars buf))
          (if N_TO_VAL (buf 6) = 6 then "C" else "F")]) ∧
    (∀ b5 b8 : Byte,
      data_parse_and_print (Function.update (Function.update buf 5 b5) 8 b8)
        = data_parse_and_print buf) := by
  refine ⟨?_, ?_, ?_⟩
  · intro h0
    rcases htype with h | h
    · rw [dispatch_temp_c buf h]; simp [handle_temperature, h0, h]
    · rw [dispatch_temp_f buf h]; simp [handle_temperature, h0, h]
  · intro hd
    rcases htype with h | h
    · rw [dispatch_temp_c buf h, handle_temperature_value buf 1 hd]; simp [h]
    · rw [dispatch_temp_f buf h, handle_temperature_value buf 0 hd]; simp [h]
  · intro b5 b8
    have hm := msg_type_update58 buf b5 b8
    rcases htype with h | h
    · have ht : msg_type buf = 6 := msg_type_of_val buf 6 (by simpa using h) (by norm_num)
      unfold data_parse_and_print
      rw [hm, ht]
      exact handle_temperature_update buf 1 b5 b8
    · have ht : msg_type buf = 13 := msg_type_of_val buf 13 (by simpa using h) (by norm_num)
      unfold data_parse_and_print
      rw [hm, ht]
      exact handle_temperature_update buf 0 b5 b8

/-- C13 at a Celsius frame with digits 0 0 2 3 5: the output is `0023.5 C`. -/
theorem C13_temperature_witness :
    data_parse_and_print frame_temp_c = [Out.data_printer "0023.5" "C"] :=
  ((C13_temperature frame_temp_c (Or.inl (by decide))).2.1 (by decide)).trans (by decide)

/-- C14: an ohms frame (type field 4) with decimal mantissa bytes and range
selector `s` in 1..6 emits the digits with the point placed as the ohms table
of the specification says, with the unit of that table. -/
theorem C14_ohms_table (buf : Frame) (s : Nat)
    (htype : N_TO_VAL (buf 6) = 4) (hsel : N_TO_VAL (buf 5) = (s : Int))
    (h1 : 1 ≤ s) (h6 : s ≤ 6) (hd : mantissaDecimal buf) :
    data_parse_and_print buf =
      [Out.data_printer (pointAfter (ohmsTable s).1 (mantissaChars buf)) (ohmsTable s).2] := by
  obtain ⟨d0, d1, d2, d3, d4⟩ := hd
  have h0 : ¬ N_TO_VAL (buf 0) > 9 := by
    have := d0.2; unfold N_TO_VAL; omega
  rw [dispatch_ohms buf htype, handle_ohms_cases]
  simp only [h0, if_false, hsel]
  interval_cases s <;>
    simp [snprintf, vformat, mantissa, hexOf_digit, d0, d1, d2, d3, d4, pointAfter,
      mantissaChars, ohmsTable]

/-- C14, example 2 of the specification: digits 0 0 5 0 0 with selector 1 give
`005.00 ohm`. -/
theorem C14_ohms_table_witness :
    data_parse_and_print frame_ohms = [Out.data_printer "005.00" "ohm"] :=
  (C14_ohms_table frame_ohms 1 (by decide) (by decide) (by decide) (by decide)
    (by decide)).trans (by decide)

/-- C15: for a microamps frame (type field 7) and a milliamps frame (type
field 8), range selectors 0 and 1 are the mapped ones (microamps: ddd.dd and
dddd.d with unit `uA`; milliamps: dd.ddd and ddd.dd with unit `mA`; the sign
`-` is prepended exactly when byte 8 minus 0x30 is 4), and every other
selector yields exactly `("error", "")` whatever the other bytes are. -/
theorem C15_amps_selectors (buf : Frame)
    (htype : N_TO_VAL (buf 6) = 7 ∨ N_TO_VAL (buf 6) = 8) :
    (N_TO_VAL (buf 6) = 7 → N_TO_VAL (buf 5) = 0 → mantissaDecimal buf →
      data_parse_and_print buf =
        [Out.data_printer ((if N_TO_VAL (buf 8) = 4 then "-" else "")
          ++ pointAfter 3 (mantissaChars buf)) "uA"]) ∧
    (N_TO_VAL (buf 6) = 7 → N_TO_VAL (buf 5) = 1 → mantissaDecimal buf →
      data_parse_and_print buf =
        [Out.data_printer ((if N_TO_VAL (buf 8) = 4 then "-" else "")
          ++ pointAfter 4 (mantissaChars buf)) "uA"]) ∧
    (N_TO_VAL (buf 6) = 8 → N_TO_VAL (buf 5) = 0 → mantissaDecimal buf →
      data_parse_and_print buf =
        [Out.data_printer ((if N_TO_VAL (buf 8) = 4 then "-" else "")
          ++ pointAfter 2 (mantissaChars buf)) "mA"]) ∧
    (N_TO_VAL (buf 6) = 8 → N_TO_VAL (buf 5) = 1 → mantissaDecimal buf →
      data_parse_and_print buf =
        [Out.data_printer ((if N_TO_VAL (buf 8) = 4 then "-" else "")
          ++ pointAfter 3 (mantissaChars buf)) "mA"]) ∧
    (N_TO_VAL (buf 5) ≠ 0 → N_TO_VAL (buf 5) ≠ 1 →
      data_parse_and_print buf = [Out.data_printer "error" ""]) := by
  refine ⟨?_, ?_, ?_, ?_, ?_⟩
  · rintro h hs ⟨d0, d1, d2, d3, d4⟩
    rw [dispatch_u_amps buf h, handle_u_amps_cases]
    simp only [hs]
    simp [snprintf, vformat, mantissa, hexOf_digit, d0, d1, d2, d3, d4, pointAfter,
      mantissaChars]
    split <;> rfl
  · rintro h hs ⟨d0, d1, d2, d3, d4⟩
    rw [dispatch_u_amps buf h, handle_u_amps_cases]
    simp only [hs]
    simp [snprintf, vformat, mantissa, hexOf_digit, d0, d1, d2, d3, d4, pointAfter,
      mantissaChars]
    split <;> rfl
  · rintro h hs ⟨d0, d1, d2, d3, d4⟩
    rw [dispatch_m_amps buf h, handle_m_amps_cases]
    simp only [hs]
    simp [snprintf, vformat, mantissa, hexOf_digit, d0, d1, d2, d3, d4, pointAfter,
      mantissaChars]
    split <;> rfl
  · rintro h hs ⟨d0, d1, d2, d3, d4⟩
    rw [dispatch_m_amps buf h, handle_m_amps_cases]
    simp only [hs]
    simp [snprintf, vformat, mantissa, hexOf_digit, d0, d1, d2, d3, d4, pointAfter,
      mantissaChars]
    split <;> rfl
  · intro hs0 hs1
    rcases htype with h | h
    · rw [dispatch_u_amps buf h, handle_u_amps_cases]
      split <;> first | rfl | contradiction
    · rw [dispatch_m_amps buf h, handle_m_amps_cases]
      split <;> first | rfl | contradiction

/-- C15 at concrete microamps frames: selector 1 with sign nibble 4 gives
`-1234.5 uA`, selector 2 gives `("error", "")`. -/
theorem C15_amps_selectors_witness :
    data_parse_and_print frame_u_amps = [Out.data_printer "-1234.5" "uA"] ∧
    data_parse_and_print frame_u_amps_sel2 = [Out.data_printer "error" ""] :=
  ⟨((C15_amps_selectors frame_u_amps (Or.inl (by decide))).2.1 (by decide) (by decide)
      (by decide)).trans (by decide),
   (C15_amps_selectors frame_u_amps_sel2 (Or.inl (by decide))).2.2.2.2 (by decide)
      (by decide)⟩

/-- C17: two frames that agree at indices 0..6 and 8, and so differ at most at
the reserved indices 7, 9 and 10, produce the identical result. -/
theorem C17_reserved_bytes (buf buf2 : Frame)
    (h : ∀ i : Fin 11, i ≠ 7 → i ≠ 9 → i ≠ 10 → buf i = buf2 i) :
    data_parse_and_print buf = data_parse_and_print buf2 := by
  have e0 := h 0 (by decide) (by decide) (by decide)
  have e1 := h 1 (by decide) (by decide) (by decide)
  have e2 := h 2 (by decide) (by decide) (by decide)
  have e3 := h 3 (by decide) (by decide) (by decide)
  have e4 := h 4 (by decide) (by decide) (by decide)
  have e5 := h 5 (by decide) (by decide) (by decide)
  have e6 := h 6 (by decide) (by decide) (by decide)
  have e8 := h 8 (by decide) (by decide) (by decide)
  simp only [data_parse_and_print, msg_type, handle_volts, handle_mvolts, handle_ohms,
    handle_cap, handle_temperature, handle_u_amps, handle_m_amps, handle_amps, handle_beep,
    handle_diode, handle_freq, mantissa, e0, e1, e2, e3, e4, e5, e6, e8]

/-- C17 at the frame of example 1 and a copy with other reserved bytes. -/
theorem C17_reserved_bytes_witness :
    data_parse_and_print frame_dc_volts = data_parse_and_print frame_dc_volts_reserved :=
  C17_reserved_bytes frame_dc_volts frame_dc_volts_reserved (by decide)

/-- C20: a frequency frame (type field 12) whose range selector is outside
0..7 emits exactly one measurement, the pair `("", "")`, whatever the mantissa
bytes are. -/
theorem C20_freq_unmapped (buf : Frame) (htype : N_TO_VAL (buf 6) = 12)
    (hsel : ¬ (0 ≤ N_TO_VAL (buf 5) ∧ N_TO_VAL (buf 5) ≤ 7)) :
    data_parse_and_print buf = [Out.data_printer "" ""] := by
  rw [dispatch_freq buf htype]
  unfold handle_freq
  split <;> first | (exfalso; omega) | rfl

/-- C20 at a frequency frame with range selector 8. -/
theorem C20_freq_unmapped_witness :
    data_parse_and_print frame_freq_sel8 = [Out.data_printer "" ""] :=
  C20_freq_unmapped frame_freq_sel8 (by decide) (by decide)

theorem digit_char_facts (n : Nat) (h1 : 48 ≤ n) (h2 : n ≤ 57) :
    Char.ofNat n ≠ '.' ∧ Char.ofNat n ≠ '-' ∧ (Char.ofNat n).isDigit = true := by
  interval_cases n <;> decide

theorem digit_byte_ne_point (b : Byte) (h : isDigitByte b) : Char.ofNat b.val ≠ '.' :=
  (digit_char_facts b.val h.1 h.2).1

theorem digit_byte_ne_minus (b : Byte) (h : isDigitByte b) : Char.ofNat b.val ≠ '-' :=
  (digit_char_facts b.val h.1 h.2).2.1

theorem digit_byte_isDigit (b : Byte) (h : isDigitByte b) : (Char.ofNat b.val).isDigit = true :=
  (digit_char_facts b.val h.1 h.2).2.2

theorem not_sentinel_of_digit (b : Byte) (h : isDigitByte b) : ¬ N_TO_VAL b > 9 := by
  have := h.2; unfold N_TO_VAL; omega

theorem handle_ohms_value (buf : Frame) (s : Nat) (hsel : N_TO_VAL (buf 5) = (s : Int))
    (h1 : 1 ≤ s) (h6 : s ≤ 6) (hd : mantissaDecimal buf) :
    handle_ohms buf =
      [Out.data_printer (pointAfter (ohmsTable s).1 (mantissaChars buf)) (ohmsTable s).2] := by
  obtain ⟨d0, d1, d2, d3, d4⟩ := hd
  rw [handle_ohms_cases]
  simp only [not_sentinel_of_digit _ d0, if_false, hsel]
  interval_cases s <;>
    simp [snprintf, vformat, mantissa, hexOf_digit, d0, d1, d2, d3, d4, pointAfter,
      mantissaChars, ohmsTable]

theorem handle_cap_value (buf : Frame) (s : Nat) (hsel : N_TO_VAL (buf 5) = (s : Int))
    (h1 : 1 ≤ s) (h6 : s ≤ 6) (hd : mantissaDecimal buf) :
    handle_cap buf =
      [Out.data_printer (pointAfter (capTable s).1 (mantissaChars buf)) (capTable s).2] := by
  obtain ⟨d0, d1, d2, d3, d4⟩ := hd
  rw [handle_cap_cases]
  simp only [not_sentinel_of_digit _ d0, if_false, hsel]
  interval_cases s <;>
    simp [snprintf, vformat, mantissa, hexOf_digit, d0, d1, d2, d3, d4, pointAfter,
      mantissaChars, capTable]

theorem handle_freq_value (buf : Frame) (s : Nat) (hsel : N_TO_VAL (buf 5) = (s : Int))
    (h7 : s ≤ 7) (hd : mantissaDecimal buf) :
    handle_freq buf =
      [Out.data_printer (pointAfter (freqTable s).1 (mantissaChars buf)) (freqTable s).2] := by
  obtain ⟨d0, d1, d2, d3, d4⟩ := hd
  simp only [handle_freq, hsel]
  interval_cases s <;>
    simp [snprintf, vformat, mantissa, hexOf_digit, d0, d1, d2, d3, d4, pointAfter,
      mantissaChars, freqTable]

theorem digitsBeforePoint_pointAfter (buf : Frame) (k : Nat) (hk : k ≤ 5)
    (hd : mantissaDecimal buf) :
    digitsBeforePoint (pointAfter k (mantissaChars buf)) = k := by
  obtain ⟨d0, d1, d2, d3, d4⟩ := hd
  have p0 := digit_byte_ne_point _ d0
  have p1 := digit_byte_ne_point _ d1
  have p2 := digit_byte_ne_point _ d2
  have p3 := digit_byte_ne_point _ d3
  have p4 := digit_byte_ne_point _ d4
  interval_cases k <;>
    simp [digitsBeforePoint, pointAfter, mantissaChars, List.takeWhile, p0, p1, p2, p3, p4]

theorem scaleOf_table (buf : Frame) (k : Nat) (unit : String) (hk : k ≤ 5)
    (hd : mantissaDecimal buf) :
    scaleOf [Out.data_printer (pointAfter k (mantissaChars buf)) unit]
      = k + 3 * prefixRank unit := by
  simp [scaleOf, digitsBeforePoint_pointAfter buf k hk hd]

/-- C18: decade scaling of the range tables.  For two frames of the same type
among ohms (4, selectors 1..6), capacitance (5, selectors 1..6) and frequency
(12, selectors 0..7), with decimal mantissa bytes and consecutive mapped range
selectors `s` and `s + 1`, the scale (digits before the point plus three times
the prefix rank of the unit) of the second output is that of the first plus
one. -/
theorem C18_decade_scaling (buf buf2 : Frame) (s : Nat)
    (htype : N_TO_VAL (buf 6) = 4 ∨ N_TO_VAL (buf 6) = 5 ∨ N_TO_VAL (buf 6) = 12)
    (htype2 : N_TO_VAL (buf2 6) = N_TO_VAL (buf 6))
    (hsel : N_TO_VAL (buf 5) = (s : Int)) (hsel2 : N_TO_VAL (buf2 5) = ((s + 1 : Nat) : Int))
    (hlo : N_TO_VAL (buf 6) ≠ 12 → 1 ≤ s) (hhi : s + 1 ≤ 7)
    (hhi6 : N_TO_VAL (buf 6) ≠ 12 → s + 1 ≤ 6)
    (hd : mantissaDecimal buf) (hd2 : mantissaDecimal buf2) :
    scaleOf (data_parse_and_print buf2) = scaleOf (data_parse_and_print buf) + 1 := by
  rcases htype with h | h | h
  · have hs1 := hlo (by omega)
    have hs6 := hhi6 (by omega)
    have hub : s ≤ 5 := by omega
    rw [dispatch_ohms buf h, dispatch_ohms buf2 (htype2.trans h),
      handle_ohms_value buf s hsel hs1 (by omega) hd,
      handle_ohms_value buf2 (s + 1) hsel2 (by omega) hs6 hd2]
    interval_cases s <;>
      simp [ohmsTable, scaleOf_table, hd, hd2] <;> decide
  · have hs1 := hlo (by omega)
    have hs6 := hhi6 (by omega)
    have hub : s ≤ 5 := by omega
    rw [dispatch_cap buf h, dispatch_cap buf2 (htype2.trans h),
      handle_cap_value buf s hsel hs1 (by omega) hd,
      handle_cap_value buf2 (s + 1) hsel2 (by omega) hs6 hd2]
    interval_cases s <;>
      simp [capTable, scaleOf_table, hd, hd2] <;> decide
  · have hub : s ≤ 6 := by omega
    rw [dispatch_freq buf h, dispatch_freq buf2 (htype2.trans h),
      handle_freq_value buf s hsel (by omega) hd,
      handle_freq_value buf2 (s + 1) hsel2 hhi hd2]
    interval_cases s <;>
      simp [freqTable, scaleOf_table, hd, hd2] <;> decide

/-- C18 at two capacitance frames with selectors 2 and 3: `123.45 nF` has
scale 3 and `1.2345 uF` has scale 4. -/
theorem C18_decade_scaling_witness :
    scaleOf (data_parse_and_print frame_cap_sel3)
      = scaleOf (data_parse_and_print frame_cap_sel2) + 1 :=
  C18_decade_scaling frame_cap_sel2 frame_cap_sel3 2 (Or.inr (Or.inl (by decide))) (by decide)
    (by decide) (by decide) (by decide) (by decide) (by decide) (by decide) (by decide)

theorem unit_eq_unitFor (buf : Frame) (value unit : String)
    (hout : Out.data_printer value unit ∈ data_parse_and_print buf) :
    unit = unitFor (msg_type buf) (N_TO_VAL (buf 5))
      (decide (isSentinel (msg_type buf) (buf 0))) := by
  unfold data_parse_and_print at hout
  split at hout
  all_goals try simp only [handle_volts, handle_mvolts, handle_ohms_cases, handle_cap_cases,
    handle_temperature, handle_u_amps_cases, handle_m_amps_cases, handle_amps, handle_beep,
    handle_diode, handle_freq, ne_eq, one_ne_zero, not_true_eq_false, not_false_eq_true,
    ite_true, ite_false] at hout
  all_goals repeat' split at hout
  all_goals try simp at hout
  all_goals try obtain ⟨-, rfl⟩ := hout
  all_goals simp_all [unitFor, isSentinel, UT_MSG_TYPE_BEEP, UT_MSG_TYPE_DIODE]
  all_goals rw [if_neg (by omega)]
theorem unitFor_mem (t : Nat) (sel : Int) (sentinel : Bool) :
    unitFor t sel sentinel = "" ∨ unitFor t sel sentinel ∈ unitStrings := by
  unfold unitFor
  repeat' split
  all_goals decide

theorem unit_emitted : ∀ u ∈ unitStrings, ∃ (frame : Frame) (value : String),
    (1 ≤ msg_type frame ∧ msg_type frame ≤ 13) ∧
    data_parse_and_print frame = [Out.data_printer value u] := by
  intro u hu
  simp only [unitStrings, List.mem_cons, List.mem_singleton, List.not_mem_nil, or_false] at hu
  rcases hu with rfl | rfl | rfl | rfl | rfl | rfl | rfl | rfl | rfl | rfl | rfl | rfl | rfl |
    rfl | rfl | rfl
  · exact ⟨frameOf 0x31 0x31, "1.2345", by decide, by decide⟩
  · exact ⟨frameOf 0x30 0x33, "123.45", by decide, by decide⟩
  · exact ⟨frameOf 0x31 0x34, "123.45", by decide, by decide⟩
  · exact ⟨frameOf 0x32 0x34, "1.2345", by decide, by decide⟩
  · exact ⟨frameOf 0x35 0x34, "1.2345", by decide, by decide⟩
  · exact ⟨frameOf 0x31 0x35, "12.345", by decide, by decide⟩
  · exact ⟨frameOf 0x33 0x35, "1.2345", by decide, by decide⟩
  · exact ⟨frameOf 0x36 0x35, "1.2345", by decide, by decide⟩
  · exact ⟨frameOf 0x30 0x36, "1234.5", by decide, by decide⟩
  · exact ⟨frameOf 0x30 0x3D, "1234.5", by decide, by decide⟩
  · exact ⟨frameOf 0x30 0x37, "123.45", by decide, by decide⟩
  · exact ⟨frameOf 0x30 0x38, "12.345", by decide, by decide⟩
  · exact ⟨frameOf 0x30 0x39, "12.345", by decide, by decide⟩
  · exact ⟨frameOf 0x30 0x3C, "12.345", by decide, by decide⟩
  · exact ⟨frameOf 0x32 0x3C, "1.2345", by decide, by decide⟩
  · exact ⟨frameOf 0x35 0x3C, "1.2345", by decide, by decide⟩

/-- C16: every emitted unit is empty or one of the sixteen listed strings;
each of the sixteen is emitted for some frame of a recognized type; and two
frames with the same message type, the same range selector and the same
sentinel status of byte 0 emit the same unit, whatever their other mantissa
bytes and sign nibbles are. -/
theorem C16_units (buf : Frame) :
    (∀ value unit, Out.data_printer value unit ∈ data_parse_and_print buf →
      unit = "" ∨ unit ∈ unitStrings) ∧
    (∀ u ∈ unitStrings, ∃ (frame : Frame) (value : String),
      (1 ≤ msg_type frame ∧ msg_type frame ≤ 13) ∧
      data_parse_and_print frame = [Out.data_printer value u]) ∧
    (∀ (buf2 : Frame) (value unit value2 unit2 : String),
      msg_type buf2 = msg_type buf → N_TO_VAL (buf2 5) = N_TO_VAL (buf 5) →
      (isSentinel (msg_type buf) (buf2 0) ↔ isSentinel (msg_type buf) (buf 0)) →
      Out.data_printer value unit ∈ data_parse_and_print buf →
      Out.data_printer value2 unit2 ∈ data_parse_and_print buf2 →
      unit2 = unit) := by
  refine ⟨?_, unit_emitted, ?_⟩
  · intro value unit hout
    rw [unit_eq_unitFor buf value unit hout]
    exact unitFor_mem _ _ _
  · intro buf2 value unit value2 unit2 ht hsel hsent hout hout2
    rw [unit_eq_unitFor buf value unit hout, unit_eq_unitFor buf2 value2 unit2 hout2, ht, hsel,
      decide_eq_decide.mpr hsent]

/-- C16 at the frame of example 1: the emitted unit `V` is one of the sixteen
listed strings. -/
theorem C16_units_witness :
    ("V" : String) = "" ∨ "V" ∈ unitStrings :=
  (C16_units frame_dc_volts).1 "-12.345" "V" (by decide)

theorem toDigitsCore_all16 (P : Char → Prop) (hP : ∀ d, d < 16 → P (Nat.digitChar d)) :
    ∀ (fuel n : Nat) (acc : List Char), (∀ c ∈ acc, P c) →
      ∀ c ∈ Nat.toDigitsCore 16 fuel n acc, P c := by
  intro fuel
  induction fuel with
  | zero =>
    intro n acc h c hc
    simpa [Nat.toDigitsCore] using h c (by simpa [Nat.toDigitsCore] using hc)
  | succ k ih =>
    intro n acc h c hc
    simp only [Nat.toDigitsCore] at hc
    split at hc
    · rcases List.mem_cons.mp hc with rfl | hc
      · exact hP _ (Nat.mod_lt _ (by norm_num))
      · exact h c hc
    · refine ih _ _ ?_ c hc
      intro c hc
      rcases List.mem_cons.mp hc with rfl | hc
      · exact hP _ (Nat.mod_lt _ (by norm_num))
      · exact h c hc

theorem hexOf_mem_upper (v : Int) : ∀ c ∈ hexOf true v, c ∈ upperHexChars := by
  intro c hc
  simp only [hexOf, if_true, List.mem_map] at hc
  obtain ⟨a, ha, rfl⟩ := hc
  refine toDigitsCore_all16 (fun a => a.toUpper ∈ upperHexChars) ?_ _ _ [] (by simp) a ha
  intro d hd
  interval_cases d <;> decide

theorem hexOf_head_upper (v : Int) :
    ∃ c cs, hexOf true v = c :: cs ∧ c ∈ upperHexChars := by
  cases h : hexOf true v with
  | nil => exact absurd h (hexOf_ne_nil v)
  | cons c cs => exact ⟨c, cs, rfl, hexOf_mem_upper v c (by simp [h])⟩

theorem render_ne_textual (v : Int) (rest : List Char) (s : String)
    (hs : s.data.head? = some 'o' ∨ s.data.head? = some 'e' ∨ s.data.head? = some 'h') :
    String.mk (List.take 14 (hexOf true v ++ rest)) ≠ s := by
  obtain ⟨c, cs, e, hc⟩ := hexOf_head_upper v
  rw [e]
  rintro rfl
  have hc2 : c ≠ 'o' ∧ c ≠ 'e' ∧ c ≠ 'h' := by
    refine ⟨?_, ?_, ?_⟩ <;> (rintro rfl; revert hc; decide)
  simp at hs
  rcases hs with h | h | h
  · exact hc2.1 h
  · exact hc2.2.1 h
  · exact hc2.2.2 h
theorem ohms_oor (buf : Frame) :
    emitsOutOfRange (handle_ohms buf) ↔ N_TO_VAL (buf 0) > 9 := by
  rw [handle_ohms_cases]
  by_cases h0 : N_TO_VAL (buf 0) > 9
  · simp [h0, emitsOutOfRange]
  · rw [if_neg h0]
    simp only [h0, iff_false]
    rintro ⟨u, hu⟩
    split at hu
    all_goals simp [snprintf, vformat, mantissa] at hu
    all_goals exact render_ne_textual _ _ _ (by decide) hu.1

theorem cap_oor (buf : Frame) :
    emitsOutOfRange (handle_cap buf) ↔ N_TO_VAL (buf 0) > 9 := by
  rw [handle_cap_cases]
  by_cases h0 : N_TO_VAL (buf 0) > 9
  · simp [h0, emitsOutOfRange]
  · rw [if_neg h0]
    simp only [h0, iff_false]
    rintro ⟨u, hu⟩
    split at hu
    all_goals simp [snprintf, vformat, mantissa] at hu
    all_goals exact render_ne_textual _ _ _ (by decide) hu.1

theorem temperature_oor (buf : Frame) (metric : Int) :
    emitsOutOfRange (handle_temperature buf metric) ↔ N_TO_VAL (buf 0) > 9 := by
  unfold handle_temperature
  by_cases h0 : N_TO_VAL (buf 0) > 9
  · simp [h0, emitsOutOfRange]
  · simp only [h0, if_false, iff_false]
    rintro ⟨u, hu⟩
    simp [snprintf, vformat, mantissa] at hu
    exact render_ne_textual _ _ _ (by decide) hu.1

theorem val_eq_ten_iff (b : Byte) : N_TO_VAL b = 0xA ↔ b.val = 0x3A := by
  unfold N_TO_VAL; omega

theorem beep_open (buf : Frame) :
    handle_beep buf = [Out.data_printer "open" ""] ↔ (buf 0).val = 0x3A := by
  rw [← val_eq_ten_iff]
  unfold handle_beep
  by_cases h0 : N_TO_VAL (buf 0) = 0xA
  · simp [h0]
  · simp only [h0, if_false, iff_false]
    intro hu
    split at hu
    · simp [snprintf, vformat, mantissa] at hu
    · simp at hu

theorem diode_open (buf : Frame) :
    handle_diode buf = [Out.data_printer "open" ""] ↔ (buf 0).val = 0x3A := by
  rw [← val_eq_ten_iff]
  unfold handle_diode
  by_cases h0 : N_TO_VAL (buf 0) = 0xA
  · simp [h0]
  · simp only [h0, if_false, iff_false]
    intro hu
    simp [snprintf, vformat, mantissa] at hu

theorem hexOf_letter (n : Nat) (h1 : 11 ≤ n) (h2 : n ≤ 15) :
    hexOf true (n : Int) = [Char.ofNat (55 + n)] := by
  interval_cases n <;> decide

theorem letter_value_numeric (n : Nat) (h1 : 11 ≤ n) (h2 : n ≤ 15) (rest : List Char) :
    isNumeric (String.mk (Char.ofNat (55 + n) :: rest)) := by
  have key : ∀ s : String, s.data.head? ≠ some (Char.ofNat (55 + n)) →
      String.mk (Char.ofNat (55 + n) :: rest) ≠ s := by
    rintro s hs rfl
    exact hs rfl
  refine ⟨key _ ?_, ?_⟩
  · interval_cases n <;> decide
  · rintro (h | h | h | h)
    all_goals
      refine key _ ?_ h
      interval_cases n <;> decide

theorem letter_render (buf : Frame) (n : Nat) (h1 : 11 ≤ n) (h2 : n ≤ 15)
    (h0 : N_TO_VAL (buf 0) = (n : Int)) (fmt : String)
    (hf : ∃ rest, fmt.data = '%' :: 'X' :: rest) :
    isNumeric (snprintf 15 fmt (mantissa buf)) ∧
    (snprintf 15 fmt (mantissa buf)).data.head? = some (Char.ofNat (55 + n)) := by
  obtain ⟨rest, hr⟩ := hf
  have e : snprintf 15 fmt (mantissa buf) =
      String.mk (Char.ofNat (55 + n) :: List.take 13 (vformat rest (mantissa buf).tail)) := by
    simp [snprintf, hr, vformat, mantissa, h0, hexOf_letter n h1 h2]
  rw [e]
  exact ⟨letter_value_numeric n h1 h2 _, rfl⟩
/-- C19, the claim as stated fails for beep: this beep frame has byte 0 equal
to 0x3B (value 11) and range selector 1, and the output is
`("high resistance", "")`, not a numeric value starting with a letter. -/
theorem C19_beep_letter_counterexample :
    N_TO_VAL (frame_beep_b_sel1 6) = 10 ∧ N_TO_VAL (frame_beep_b_sel1 0) = 11 ∧
    data_parse_and_print frame_beep_b_sel1 = [Out.data_printer "high resistance" ""] ∧
    ¬ isNumeric "high resistance" ∧
    ("high resistance" : String).data.head? ≠ some 'B' := by
  decide

/-- C19, amended: ohms, capacitance and temperature emit `out of range`
exactly when byte 0 minus 0x30 exceeds 9, that is when byte 0 is at least
0x3A; beep and diode emit `open` exactly when byte 0 is 0x3A; and a diode
frame, or a beep frame with range selector 0, whose byte 0 minus 0x30 is `n` in
11..15 emits a numeric value whose first character is the hexadecimal letter
of `n` (B..F). -/
theorem C19_sentinel_thresholds (buf : Frame) :
    ((N_TO_VAL (buf 6) = 4 ∨ N_TO_VAL (buf 6) = 5 ∨ N_TO_VAL (buf 6) = 6 ∨
        N_TO_VAL (buf 6) = 13) →
      (emitsOutOfRange (data_parse_and_print buf) ↔ N_TO_VAL (buf 0) > 9)) ∧
    (N_TO_VAL (buf 0) > 9 ↔ 0x3A ≤ (buf 0).val) ∧
    ((N_TO_VAL (buf 6) = 10 ∨ N_TO_VAL (buf 6) = 11) →
      (data_parse_and_print buf = [Out.data_printer "open" ""] ↔ (buf 0).val = 0x3A)) ∧
    ((N_TO_VAL (buf 6) = 11 ∨ (N_TO_VAL (buf 6) = 10 ∧ N_TO_VAL (buf 5) = 0)) →
      ∀ n : Nat, 11 ≤ n → n ≤ 15 → N_TO_VAL (buf 0) = (n : Int) →
        ∃ value unit, data_parse_and_print buf = [Out.data_printer value unit] ∧
          isNumeric value ∧ value.data.head? = some (Char.ofNat (55 + n))) := by
  refine ⟨?_, ?_, ?_, ?_⟩
  · rintro (h | h | h | h)
    · rw [dispatch_ohms buf h]; exact ohms_oor buf
    · rw [dispatch_cap buf h]; exact cap_oor buf
    · rw [dispatch_temp_c buf h]; exact temperature_oor buf 1
    · rw [dispatch_temp_f buf h]; exact temperature_oor buf 0
  · unfold N_TO_VAL; omega
  · rintro (h | h)
    · rw [dispatch_beep buf h]; exact beep_open buf
    · rw [dispatch_diode buf h]; exact diode_open buf
  · rintro (h | ⟨h, h5⟩) n h1 h2 h0
    · have hne : ¬ N_TO_VAL (buf 0) = 0xA := by omega
      refine ⟨snprintf 15 "%X.%X%X%X%X" (mantissa buf), "mV", ?_,
        letter_render buf n h1 h2 h0 _ ⟨_, rfl⟩⟩
      rw [dispatch_diode buf h]
      simp [handle_diode, hne]
    · have hne : ¬ N_TO_VAL (buf 0) = 0xA := by omega
      refine ⟨snprintf 15 "%X%X%X.%X%X" (mantissa buf), "ohm", ?_,
        letter_render buf n h1 h2 h0 _ ⟨_, rfl⟩⟩
      rw [dispatch_beep buf h]
      simp [handle_beep, hne, h5]

/-- C19, amended, at a diode frame whose byte 0 is 0x3C: the value is numeric
and starts with `C`. -/
theorem C19_sentinel_thresholds_witness :
    ∃ value unit, data_parse_and_print frame_diode_c = [Out.data_printer value unit] ∧
      isNumeric value ∧ value.data.head? = some 'C' :=
  (C19_sentinel_thresholds frame_diode_c).2.2.2 (Or.inl (by decide)) 12 (by decide) (by decide)
    (by decide)

/-- C11, the claim as stated fails: this DC-volts frame has mantissa byte 0x3B
at index 1, and the emitted value `1B.345` is none of the four textual
measurements and is not five decimal digits around a point. -/
theorem C11_value_shape_counterexample :
    msg_type frame_dc_volts_hex = 1 ∧
    data_parse_and_print frame_dc_volts_hex = [Out.data_printer "1B.345" "V"] ∧
    ¬ isTextual "1B.345" ∧ ¬ signedFiveDigits "1B.345" := by
  decide

theorem numeric_form (buf : Frame) (hd : mantissaDecimal buf) (value unit : String)
    (hout : Out.data_printer value unit ∈ data_parse_and_print buf)
    (hnum : isNumeric value) :
    ∃ (sign : String) (k : Nat), (sign = "" ∨ sign = "-") ∧ 1 ≤ k ∧ k ≤ 4 ∧
      value = sign ++ pointAfter k (mantissaChars buf) := by
  obtain ⟨d0, d1, d2, d3, d4⟩ := hd
  unfold data_parse_and_print at hout
  split at hout
  all_goals try simp only [handle_volts, handle_mvolts, handle_ohms_cases, handle_cap_cases,
    handle_temperature, handle_u_amps_cases, handle_m_amps_cases, handle_amps, handle_beep,
    handle_diode, handle_freq, ne_eq, one_ne_zero, not_true_eq_false, not_false_eq_true,
    ite_true, ite_false] at hout
  all_goals repeat' split at hout
  all_goals try simp [snprintf, vformat, mantissa, hexOf_digit, d0, d1, d2, d3, d4] at hout
  all_goals try obtain ⟨rfl, rfl⟩ := hout
  all_goals first
    | exact absurd hnum (by decide)
    | exact ⟨"", 1, Or.inl rfl, by decide, by decide, rfl⟩
    | exact ⟨"", 2, Or.inl rfl, by decide, by decide, rfl⟩
    | exact ⟨"", 3, Or.inl rfl, by decide, by decide, rfl⟩
    | exact ⟨"", 4, Or.inl rfl, by decide, by decide, rfl⟩
    | exact ⟨"-", 1, Or.inr rfl, by decide, by decide, rfl⟩
    | exact ⟨"-", 2, Or.inr rfl, by decide, by decide, rfl⟩
    | exact ⟨"-", 3, Or.inr rfl, by decide, by decide, rfl⟩
    | exact ⟨"-", 4, Or.inr rfl, by decide, by decide, rfl⟩

theorem shape_of_form (buf : Frame) (hd : mantissaDecimal buf) (sign : String) (k : Nat)
    (hs : sign = "" ∨ sign = "-") (h1 : 1 ≤ k) (h4 : k ≤ 4) :
    signedFiveDigits (sign ++ pointAfter k (mantissaChars buf)) := by
  obtain ⟨d0, d1, d2, d3, d4⟩ := hd
  have p0 := digit_byte_ne_point _ d0
  have p1 := digit_byte_ne_point _ d1
  have p2 := digit_byte_ne_point _ d2
  have p3 := digit_byte_ne_point _ d3
  have p4 := digit_byte_ne_point _ d4
  have m0 := digit_byte_ne_minus _ d0
  have g0 := digit_byte_isDigit _ d0
  have g1 := digit_byte_isDigit _ d1
  have g2 := digit_byte_isDigit _ d2
  have g3 := digit_byte_isDigit _ d3
  have g4 := digit_byte_isDigit _ d4
  rcases hs with rfl | rfl <;> interval_cases k <;>
    simp [signedFiveDigits, fiveDigitsOnePoint, pointAfter, mantissaChars, String.data_append,
      List.count_cons, p0, p1, p2, p3, p4, m0, g0, g1, g2, g3, g4]

theorem length_of_form (buf : Frame) (sign : String) (k : Nat)
    (hs : sign = "" ∨ sign = "-") (h1 : 1 ≤ k) (h4 : k ≤ 4) :
    (sign ++ pointAfter k (mantissaChars buf)).length = 6 + sign.length := by
  rcases hs with rfl | rfl <;> interval_cases k <;> rfl

/-- C11, amended: for every frame whose five mantissa bytes are ASCII digits,
every emitted value that is not empty and not one of the four textual
measurements consists of an optional leading `-` followed by five decimal
digits with exactly one point among them, of total length 6, or 7 with the
sign. -/
theorem C11_value_shape (buf : Frame) (hd : mantissaDecimal buf) (value unit : String)
    (hout : Out.data_printer value unit ∈ data_parse_and_print buf)
    (hnum : isNumeric value) :
    signedFiveDigits value ∧ (value.length = 6 ∨ value.length = 7) := by
  obtain ⟨sign, k, hs, h1, h4, rfl⟩ := numeric_form buf hd value unit hout hnum
  refine ⟨shape_of_form buf hd sign k hs h1 h4, ?_⟩
  rw [length_of_form buf sign k hs h1 h4]
  rcases hs with rfl | rfl
  · exact Or.inl rfl
  · exact Or.inr rfl

/-- C11, amended, at the frame of example 1: `-12.345` has the shape. -/
theorem C11_value_shape_witness :
    signedFiveDigits "-12.345" ∧
      (("-12.345" : String).length = 6 ∨ ("-12.345" : String).length = 7) :=
  C11_value_shape frame_dc_volts (by decide) "-12.345" "V" (by decide) (by decide)

theorem snprintf_empty (args : List Arg) : snprintf 15 "" args = "" := rfl

theorem snprintf_s1 (sign : String) (buf : Frame) :
    snprintf 15 "%s%X.%X%X%X%X" (Arg.str sign :: mantissa buf)
      = String.mk ((fullRender sign 1 buf).take 14) := by
  simp [snprintf, vformat, mantissa, fullRender, hexFields]

theorem snprintf_s2 (sign : String) (buf : Frame) :
    snprintf 15 "%s%X%X.%X%X%X" (Arg.str sign :: mantissa buf)
      = String.mk ((fullRender sign 2 buf).take 14) := by
  simp [snprintf, vformat, mantissa, fullRender, hexFields]

theorem snprintf_s3 (sign : String) (buf : Frame) :
    snprintf 15 "%s%X%X%X.%X%X" (Arg.str sign :: mantissa buf)
      = String.mk ((fullRender sign 3 buf).take 14) := by
  simp [snprintf, vformat, mantissa, fullRender, hexFields]

theorem snprintf_s4 (sign : String) (buf : Frame) :
    snprintf 15 "%s%X%X%X%X.%X" (Arg.str sign :: mantissa buf)
      = String.mk ((fullRender sign 4 buf).take 14) := by
  simp [snprintf, vformat, mantissa, fullRender, hexFields]

theorem snprintf_u1 (buf : Frame) :
    snprintf 15 "%X.%X%X%X%X" (mantissa buf) = String.mk ((fullRender "" 1 buf).take 14) := by
  simp [snprintf, vformat, mantissa, fullRender, hexFields]

theorem snprintf_u2 (buf : Frame) :
    snprintf 15 "%X%X.%X%X%X" (mantissa buf) = String.mk ((fullRender "" 2 buf).take 14) := by
  simp [snprintf, vformat, mantissa, fullRender, hexFields]

theorem snprintf_u3 (buf : Frame) :
    snprintf 15 "%X%X%X.%X%X" (mantissa buf) = String.mk ((fullRender "" 3 buf).take 14) := by
  simp [snprintf, vformat, mantissa, fullRender, hexFields]

theorem snprintf_u4 (buf : Frame) :
    snprintf 15 "%X%X%X%X.%X" (mantissa buf) = String.mk ((fullRender "" 4 buf).take 14) := by
  simp [snprintf, vformat, mantissa, fullRender, hexFields]

theorem render_link (buf : Frame) (value unit : String)
    (hout : Out.data_printer value unit ∈ data_parse_and_print buf)
    (hnum : isNumeric value) :
    ∃ (sign : String) (k : Nat), (sign = "" ∨ sign = "-") ∧ 1 ≤ k ∧ k ≤ 4 ∧
      value = String.mk ((fullRender sign k buf).take 14) := by
  unfold data_parse_and_print at hout
  split at hout
  all_goals try simp only [handle_volts, handle_mvolts, handle_ohms_cases, handle_cap_cases,
    handle_temperature, handle_u_amps_cases, handle_m_amps_cases, handle_amps, handle_beep,
    handle_diode, handle_freq, ne_eq, one_ne_zero, not_true_eq_false, not_false_eq_true,
    ite_true, ite_false] at hout
  all_goals repeat' split at hout
  all_goals try simp only [List.mem_singleton, Out.data_printer.injEq, snprintf_empty,
    snprintf_s1, snprintf_s2, snprintf_s3, snprintf_s4, snprintf_u1, snprintf_u2, snprintf_u3,
    snprintf_u4] at hout
  all_goals first
    | (exfalso; simp at hout)
    | (obtain ⟨rfl, rfl⟩ := hout
       first
         | exact absurd hnum (by decide)
         | exact ⟨_, _, Or.inl rfl, by decide, by decide, rfl⟩
         | exact ⟨_, _, Or.inr rfl, by decide, by decide, rfl⟩)

theorem hexOf_length_le (n : Nat) (h : n < 256) : (hexOf true (n : Int)).length ≤ 2 := by
  interval_cases n <;> decide

theorem hexOf_byte_length_le (b : Byte) (h : 0x30 ≤ b.val) :
    (hexOf true (N_TO_VAL b)).length ≤ 2 := by
  have e : N_TO_VAL b = ((b.val - 48 : Nat) : Int) := by
    unfold N_TO_VAL; omega
  rw [e]
  exact hexOf_length_le _ (by omega)

theorem fullRender_length_le (buf : Frame)
    (hge : ∀ i : Fin 11, i.val < 5 → 0x30 ≤ (buf i).val) (sign : String) (k : Nat)
    (hs : sign = "" ∨ sign = "-") (h1 : 1 ≤ k) (h4 : k ≤ 4) :
    (fullRender sign k buf).length ≤ 12 := by
  have l0 := hexOf_byte_length_le (buf 0) (hge 0 (by decide))
  have l1 := hexOf_byte_length_le (buf 1) (hge 1 (by decide))
  have l2 := hexOf_byte_length_le (buf 2) (hge 2 (by decide))
  have l3 := hexOf_byte_length_le (buf 3) (hge 3 (by decide))
  have l4 := hexOf_byte_length_le (buf 4) (hge 4 (by decide))
  rcases hs with rfl | rfl <;> interval_cases k <;>
    simp [fullRender, hexFields] <;> omega

/-- C12, the claim as stated fails: for this millivolts frame, whose mantissa
bytes are 0x20, each field prints as eight hexadecimal digits, the fully
rendered value has 41 characters, and `snprintf` stores only its first 14. -/
theorem C12_render_length_counterexample :
    (fullRender "" 3 frame_mvolts_low).length = 41 ∧
    ¬ (fullRender "" 3 frame_mvolts_low).length ≤ 14 ∧
    data_parse_and_print frame_mvolts_low = [Out.data_printer "FFFFFFF0FFFFFF" "mV"] ∧
    ("FFFFFFF0FFFFFF" : String) = String.mk ((fullRender "" 3 frame_mvolts_low).take 14) ∧
    ("FFFFFFF0FFFFFF" : String) ≠ String.mk (fullRender "" 3 frame_mvolts_low) := by
  decide

/-- C12, amended: every emitted numeric value is the first 14 characters of a
full rendering (sign, five `%X` fields, decimal point after the first `k`);
and for every frame whose five mantissa bytes are all at least 0x30, every
full rendering is at most 12, hence at most 14, characters long, so that the
emitted value is the full rendering, untruncated. -/
theorem C12_render_length (buf : Frame) :
    (∀ value unit, Out.data_printer value unit ∈ data_parse_and_print buf → isNumeric value →
      ∃ (sign : String) (k : Nat), (sign = "" ∨ sign = "-") ∧ 1 ≤ k ∧ k ≤ 4 ∧
        value = String.mk ((fullRender sign k buf).take 14)) ∧
    ((∀ i : Fin 11, i.val < 5 → 0x30 ≤ (buf i).val) →
      (∀ (sign : String) (k : Nat), (sign = "" ∨ sign = "-") → 1 ≤ k → k ≤ 4 →
        (fullRender sign k buf).length ≤ 12 ∧ (fullRender sign k buf).length ≤ 14) ∧
      (∀ value unit, Out.data_printer value unit ∈ data_parse_and_print buf →
        isNumeric value →
        ∃ (sign : String) (k : Nat), (sign = "" ∨ sign = "-") ∧ 1 ≤ k ∧ k ≤ 4 ∧
          value = String.mk (fullRender sign k buf))) := by
  refine ⟨render_link buf, fun hge => ⟨?_, ?_⟩⟩
  · intro sign k hs h1 h4
    have := fullRender_length_le buf hge sign k hs h1 h4
    exact ⟨this, by omega⟩
  · intro value unit hout hnum
    obtain ⟨sign, k, hs, h1, h4, e⟩ := render_link buf value unit hout hnum
    refine ⟨sign, k, hs, h1, h4, ?_⟩
    have := fullRender_length_le buf hge sign k hs h1 h4
    rw [e, List.take_of_length_le (by omega)]

/-- C12, amended, at the frame of example 1: the full rendering `-12.345` has
seven characters and is emitted untruncated. -/
theorem C12_render_length_witness :
    (fullRender "-" 2 frame_dc_volts).length ≤ 12 ∧
      (fullRender "-" 2 frame_dc_volts).length ≤ 14 :=
  ((C12_render_length frame_dc_volts).2 (by decide)).1 "-" 2 (Or.inr rfl) (by decide)
    (by decide)

theorem strlen_of_cstring (f : List Nat) (hf : isCString f) : strlen f = f.length := by
  unfold strlen
  rw [List.takeWhile_eq_self_iff.mpr]
  intro b hb
  simpa using hf b hb

theorem memset_whole (dst : List Nat) (c n : Nat) (h : dst.length = n) :
    memset dst c n = List.replicate n c := by
  unfold memset
  rw [h, Nat.min_self, List.drop_of_length_le (by omega), List.append_nil]

theorem MIN_eq_min (x y : Nat) : MIN x y = min y x := by
  unfold MIN
  split <;> omega

theorem set_time_format_buffer (cfg : Config) (f : List Nat)
    (hlen : cfg.date_format.length = DATE_FORMAT_SIZE) (hf : isCString f) :
    (parser_set_time_format (some f) cfg).date_format
      = f.take (min f.length 42) ++ List.replicate (42 - min f.length 42) 0 := by
  show memcpy (memset cfg.date_format 0 DATE_FORMAT_SIZE) f (MIN DATE_FORMAT_SIZE (strlen f)) = _
  rw [memset_whole _ _ _ hlen, strlen_of_cstring f hf, MIN_eq_min]
  unfold memcpy DATE_FORMAT_SIZE
  rw [List.drop_replicate]

theorem takeWhile_append_zero (f : List Nat) (hf : isCString f) (m : Nat) :
    List.takeWhile (fun b => decide (b ≠ 0)) (f ++ List.replicate (m + 1) 0) = f := by
  induction f with
  | nil => simp [List.replicate_succ]
  | cons a t ih =>
    have ha : a ≠ 0 := hf a (by simp)
    have ht : isCString t := fun b hb => hf b (by simp [hb])
    simpa [List.takeWhile_cons, ha] using ih ht

/-- C21: for a non-null format string `f` (bytes without a zero) of length
`n`, `parser_set_time_format` leaves the 42-byte template buffer holding the
first `min n 42` bytes of `f` followed by `42 - min n 42` zero bytes; the
stored template equals `f` and is terminated by a zero byte inside the buffer
exactly when `n ≤ 41`; for `n ≥ 42` no zero byte remains in the buffer; and
the other three settings are unchanged. -/
theorem C21_time_format_buffer (cfg : Config) (f : List Nat)
    (hlen : cfg.date_format.length = DATE_FORMAT_SIZE) (hf : isCString f) :
    (parser_set_time_format (some f) cfg).date_format
      = f.take (min f.length 42) ++ List.replicate (42 - min f.length 42) 0 ∧
    (parser_set_time_format (some f) cfg).date_format.length = 42 ∧
    ((cString (parser_set_time_format (some f) cfg).date_format = f ∧
        0 ∈ (parser_set_time_format (some f) cfg).date_format) ↔ f.length ≤ 41) ∧
    (42 ≤ f.length → 0 ∉ (parser_set_time_format (some f) cfg).date_format) ∧
    (parser_set_time_format (some f) cfg).use_unix_time = cfg.use_unix_time ∧
    (parser_set_time_format (some f) cfg).use_csv_format = cfg.use_csv_format ∧
    (parser_set_time_format (some f) cfg).print_units = cfg.print_units := by
  have hb := set_time_format_buffer cfg f hlen hf
  have hge : 42 ≤ f.length → 0 ∉ (parser_set_time_format (some f) cfg).date_format := by
    intro h42 h0
    rw [hb, Nat.min_eq_right h42] at h0
    simp at h0
    exact hf 0 (List.mem_of_mem_take h0) rfl
  refine ⟨hb, ?_, ?_, hge, rfl, rfl, rfl⟩
  · rw [hb]
    simp
  · constructor
    · rintro ⟨-, h0⟩
      by_contra hn
      exact hge (by omega) h0
    · intro h41
      have hm : min f.length 42 = f.length := Nat.min_eq_left (by omega)
      have hr : 42 - f.length = (41 - f.length) + 1 := by omega
      rw [hb, hm, List.take_length, hr]
      refine ⟨?_, by simp [List.replicate_succ]⟩
      unfold cString
      exact takeWhile_append_zero f hf _

/-- C21 from the initial state with the template `%H:%M`: the buffer holds
these five bytes followed by 37 zero bytes. -/
theorem C21_time_format_buffer_witness :
    (parser_set_time_format (some (bytesOf "%H:%M")) Config.initial).date_format
      = bytesOf "%H:%M" ++ List.replicate 37 0 :=
  (C21_time_format_buffer Config.initial (bytesOf "%H:%M") (by decide) (by decide)).1.trans
    (by decide)

/-- C4, the claim as stated fails for beep frames whose mantissa bytes are not
decimal digits: with range selector 0 and byte 0 not the sentinel, the frame
with mantissa bytes 0x20 emits `FFFFFFF0FFFFFF`, which has no point, and the
frame with mantissa bytes 0x3B 0x40 0x30 0x30 0x30 emits `B100.00`; neither is
five digits rendered as ddd.dd. -/
theorem C4_beep_counterexample :
    (N_TO_VAL (frame_beep_low 6) = 10 ∧ N_TO_VAL (frame_beep_low 0) ≠ 10 ∧
      N_TO_VAL (frame_beep_low 5) = 0 ∧
      data_parse_and_print frame_beep_low = [Out.data_printer "FFFFFFF0FFFFFF" "ohm"] ∧
      ¬ fiveDigitsOnePoint ("FFFFFFF0FFFFFF" : String).data ∧
      ("FFFFFFF0FFFFFF" : String) ≠ pointAfter 3 (mantissaChars frame_beep_low)) ∧
    (N_TO_VAL (frame_beep_hex 6) = 10 ∧ N_TO_VAL (frame_beep_hex 0) ≠ 10 ∧
      N_TO_VAL (frame_beep_hex 5) = 0 ∧
      data_parse_and_print frame_beep_hex = [Out.data_printer "B100.00" "ohm"] ∧
      ¬ fiveDigitsOnePoint ("B100.00" : String).data ∧
      ("B100.00" : String) ≠ pointAfter 3 (mantissaChars frame_beep_hex)) := by
  decide

/-- C4, amended: for a beep frame (type field 10), byte 0 decoding to 10 gives
`("open", "")`; otherwise range selector 0 gives unit `ohm` and as value the
first 14 characters of the five `%X` fields with the point after the third,
which for decimal mantissa bytes is the five digits as ddd.dd; otherwise the
output is `("high resistance", "")`.  The three cases are exhaustive and are
tested in that order. -/
theorem C4_beep (buf : Frame) (htype : N_TO_VAL (buf 6) = 10) :
    (N_TO_VAL (buf 0) = 10 → data_parse_and_print buf = [Out.data_printer "open" ""]) ∧
    (N_TO_VAL (buf 0) ≠ 10 → N_TO_VAL (buf 5) = 0 →
      data_parse_and_print buf
        = [Out.data_printer (String.mk ((fullRender "" 3 buf).take 14)) "ohm"] ∧
      (mantissaDecimal buf →
        data_parse_and_print buf
          = [Out.data_printer (pointAfter 3 (mantissaChars buf)) "ohm"])) ∧
    (N_TO_VAL (buf 0) ≠ 10 → N_TO_VAL (buf 5) ≠ 0 →
      data_parse_and_print buf = [Out.data_printer "high resistance" ""]) := by
  rw [dispatch_beep buf htype]
  unfold handle_beep
  refine ⟨fun h => by simp [h], fun h0 h5 => ⟨by simp [h0, h5, snprintf_u3], ?_⟩,
    fun h0 h5 => by simp [h0, h5]⟩
  rintro ⟨d0, d1, d2, d3, d4⟩
  simp [h0, h5, snprintf, vformat, mantissa, hexOf_digit, d0, d1, d2, d3, d4, pointAfter,
    mantissaChars]

/-- C4, amended, at a concrete beep frame with digits 0 0 1 2 3 and selector
0: the output is `001.23 ohm`. -/
theorem C4_beep_witness :
    data_parse_and_print frame_beep = [Out.data_printer "001.23" "ohm"] :=
  ((C4_beep frame_beep (by decide)).2.1 (by decide) (by decide)).2 (by decide)

end UT
